import Mathlib

/-!
System-upgrade-controller chart builder and status reconciler.

A shallow embedding of `pkg/controllers/provisioningv2/rke2/managesystemagent/managesystemagentplan.go`:
the builder `OnChangeInstallSUC` and the reconciler `syncSystemUpgradeControllerStatus`.

Conventions of the embedding.

* Go `(T, error)` results are pairs whose second component is `Option Error` (`none` is `nil`).
* A Go run-time panic (index out of range, nil dereference) is the outer `none` of the
  `Option` that `syncSystemUpgradeControllerStatus` returns; a normal return is `some _`.
* `map[string]interface{}` is an association list of `Value`s, read with `List.lookup`.
* Library functions whose code is outside the package (`semver.NewVersion`, `name.SafeConcatName`,
  the digest behind `name.Hex`, the chart-version setting, the registry resolver) are fields of
  `Externals`; every theorem holds for all of them.
* Strings are sequences of characters; object names are DNS labels, so the byte length Go computes
  and the character length used here coincide on them.
-/

namespace Managesystemagent

/-! ## Errors -/

/-- A Go `error` value. `isNotFound` is the answer of `errors.IsNotFound` on it. -/
structure Error where
  isNotFound : Bool
  message : String
deriving DecidableEq, Repr

/-! ## Semantic versions -/

/-- Modelled from the spec: `SemanticVersion`, the value `semver.NewVersion` produces (the semver
library is not part of the package). Fields as in `semver.Version`: three numeric segments, the
pre-release string and the build metadata. -/
structure Version where
  major : Nat
  minor : Nat
  patch : Nat
  pre : String
  metadata : String
deriving DecidableEq, Repr

/-- The three-way comparison of one numeric segment. -/
def compareSegment (v o : Nat) : Int :=
  if v < o then -1 else if v > o then 1 else 0

/-- The value of an all-digit character list, `none` when it is empty or contains another
character (`strconv.ParseUint` in base 10, 64 bits). -/
def parseUint (cs : List Char) : Option Nat :=
  if cs = [] ∨ ¬ cs.all Char.isDigit then none
  else
    let n := cs.foldl (fun acc c => 10 * acc + (c.toNat - 48)) 0
    if n < 2 ^ 64 then some n else none

/-- Comparison of the character lists of two strings, as Go compares strings. -/
def charsLt : List Char → List Char → Bool
  | [], [] => false
  | [], _ :: _ => true
  | _ :: _, [] => false
  | a :: as, b :: bs => if a.toNat < b.toNat then true else if b.toNat < a.toNat then false else charsLt as bs

/-- Comparison of one dot-separated pre-release identifier with another: numeric identifiers
compare as numbers and sort before alphanumeric ones, which compare as strings; a missing
identifier sorts before a present one. -/
def comparePrePart (s o : List Char) : Int :=
  if s = o then 0
  else if s = [] then -1
  else if o = [] then 1
  else
    match parseUint o, parseUint s with
    | none, none => if charsLt o s then 1 else -1
    | none, some _ => -1
    | some _, none => 1
    | some oi, some si => if si > oi then 1 else -1

/-- Split a character list at every dot. -/
def splitDots : List Char → List (List Char)
  | [] => [[]]
  | c :: cs =>
    match splitDots cs with
    | [] => [[c]]
    | p :: ps => if c = '.' then [] :: p :: ps else (c :: p) :: ps

/-- Identifier-wise comparison of two split pre-release strings. -/
def comparePreParts : List (List Char) → List (List Char) → Int
  | [], [] => 0
  | s :: ss, [] => let d := comparePrePart s []; if d ≠ 0 then d else comparePreParts ss []
  | [], o :: os => let d := comparePrePart [] o; if d ≠ 0 then d else comparePreParts [] os
  | s :: ss, o :: os => let d := comparePrePart s o; if d ≠ 0 then d else comparePreParts ss os

/-- Comparison of two non-empty pre-release strings. -/
def comparePrerelease (v o : String) : Int :=
  comparePreParts (splitDots v.data) (splitDots o.data)

/-- Modelled from the spec: the total order on `SemanticVersion` (`Version.Compare` of the semver
library): segments first, then a version without pre-release sorts above one with a pre-release;
build metadata is ignored. -/
def Version.Compare (v o : Version) : Int :=
  let d := compareSegment v.major o.major
  if d ≠ 0 then d
  else
    let d := compareSegment v.minor o.minor
    if d ≠ 0 then d
    else
      let d := compareSegment v.patch o.patch
      if d ≠ 0 then d
      else if v.pre = "" ∧ o.pre = "" then 0
      else if v.pre = "" then 1
      else if o.pre = "" then -1
      else comparePrerelease v.pre o.pre

/-- The strict order test `v.LessThan(o)`. -/
def Version.LessThan (v o : Version) : Bool :=
  decide (v.Compare o < 0)

/-- Modelled from the spec: the fixed threshold constant `Kubernetes125`, version 1.25.0 (its
declaration is in another file of the package). -/
def Kubernetes125 : Version :=
  { major := 1, minor := 25, patch := 0, pre := "", metadata := "" }

/-! ## Untyped helm values -/

/-- A Go `interface{}` value as found in decoded helm values. -/
inductive Value where
  | null
  | bool (b : Bool)
  | str (s : String)
  | num (n : Int)
  | list (xs : List Value)
  | map (m : List (String × Value))

/-- The type assertion `x.(map[string]interface{})` in its comma-ok form, applied to the result of
a map read (`none` is the nil interface of a missing key). -/
def asMap : Option Value → Option (List (String × Value))
  | some (Value.map m) => some m
  | _ => none

/-- The type assertion `x.(bool)` in its comma-ok form. -/
def asBool : Option Value → Option Bool
  | some (Value.bool b) => some b
  | _ => none

/-! ## Fleet bundle -/

structure NonReadyResource where
  name : String
  message : String
deriving DecidableEq, Repr

structure BundleSummary where
  ready : Int
  desiredReady : Int
  errApplied : Int
  nonReadyResources : List NonReadyResource
deriving DecidableEq, Repr

structure GenericMap where
  data : List (String × Value)

structure HelmOptions where
  values : Option GenericMap

structure BundleSpec where
  helm : Option HelmOptions

structure BundleStatus where
  summary : BundleSummary

structure Bundle where
  spec : BundleSpec
  status : BundleStatus

/-! ## Conditions and statuses -/

/-- Modelled from the spec: `Condition`, a state (`"True"`, `"False"`, `"Unknown"`, or `""` when
never set) plus a free-text reason. -/
structure Condition where
  status : String
  reason : String
deriving DecidableEq, Repr

/-- The status of the control-plane object: the `SystemUpgradeControllerReady` condition and the
conditions of other types, which this package never touches. -/
structure RKEControlPlaneStatus where
  systemUpgradeControllerReady : Condition
  otherConditions : List (String × Condition)
deriving DecidableEq, Repr

structure RKEControlPlaneSpec where
  kubernetesVersion : String
deriving DecidableEq, Repr

structure RKEControlPlane where
  name : String
  spec : RKEControlPlaneSpec
deriving DecidableEq, Repr

/-- Modelled from the spec: `rke2.SystemUpgradeControllerReady.True(&status)` sets the state of the
condition and nothing else. -/
def SystemUpgradeControllerReady.True (status : RKEControlPlaneStatus) : RKEControlPlaneStatus :=
  { status with systemUpgradeControllerReady := { status.systemUpgradeControllerReady with status := "True" } }

/-- Modelled from the spec: `rke2.SystemUpgradeControllerReady.False(&status)`. -/
def SystemUpgradeControllerReady.False (status : RKEControlPlaneStatus) : RKEControlPlaneStatus :=
  { status with systemUpgradeControllerReady := { status.systemUpgradeControllerReady with status := "False" } }

/-- Modelled from the spec: `rke2.SystemUpgradeControllerReady.Unknown(&status)`. -/
def SystemUpgradeControllerReady.Unknown (status : RKEControlPlaneStatus) : RKEControlPlaneStatus :=
  { status with systemUpgradeControllerReady := { status.systemUpgradeControllerReady with status := "Unknown" } }

/-- Modelled from the spec: `rke2.SystemUpgradeControllerReady.Reason(&status, reason)` sets the
reason of the condition and nothing else. -/
def SystemUpgradeControllerReady.Reason (status : RKEControlPlaneStatus) (reason : String) :
    RKEControlPlaneStatus :=
  { status with systemUpgradeControllerReady := { status.systemUpgradeControllerReady with reason := reason } }

/-! ## Provisioning cluster and managed chart -/

structure ClusterSpec where
  rkeConfig : Option Unit
  kubernetesVersion : String
deriving DecidableEq, Repr

structure Cluster where
  name : String
  namespace_ : String
  spec : ClusterSpec
deriving DecidableEq, Repr

structure ClusterStatus where
  ready : Bool
  observedGeneration : Int
deriving DecidableEq, Repr

structure LabelSelectorRequirement where
  key : String
  operator : String

structure LabelSelector where
  matchExpressions : List LabelSelectorRequirement

structure BundleTarget where
  clusterName : String
  clusterSelector : Option LabelSelector

structure ManagedChartSpec where
  defaultNamespace : String
  repoName : String
  chart : String
  version : String
  values : Option GenericMap
  targets : List BundleTarget

structure ObjectMeta where
  namespace_ : String
  name : String

structure ManagedChart where
  objectMeta : ObjectMeta
  spec : ManagedChartSpec

/-! ## External collaborators -/

/-- The functions and settings the package calls but does not define. -/
structure Externals where
  /-- The parser `semver.NewVersion`. -/
  NewVersion : String → Except Error Version
  /-- The joiner `name.SafeConcatName`. -/
  SafeConcatName : List String → String
  /-- The hexadecimal MD5 digest behind `name.Hex`. -/
  md5Hex : String → String
  /-- The setting `settings.SystemUpgradeControllerChartVersion.Get()`. -/
  chartVersion : String
  /-- The resolver `image.GetPrivateRepoURLFromCluster`. -/
  GetPrivateRepoURLFromCluster : Cluster → String

/-- The bundle client of the handler: `bundles.Get(namespace, name, opts)`. -/
structure handler where
  bundles : String → String → Except Error Bundle

/-- The function `name.Hex(s, length)`: the first `length` characters of the digest. -/
def Hex (ext : Externals) (s : String) (length : Nat) : String :=
  (ext.md5Hex s).take length

/-- Modelled from the spec: `name.Limit(s, count)` truncates to a fixed maximum length: a string
shorter than `count` is kept, a longer one is cut to `count - 6` characters and a dash and five
digest characters are appended. -/
def Limit (ext : Externals) (s : String) (count : Nat) : String :=
  if s.length < count then s else s.take (count - 6) ++ "-" ++ Hex ext s 5

/-- The constant `fleet.ClustersDefaultNamespace`. -/
def ClustersDefaultNamespace : String := "fleet-default"

/-- The constant `namespaces.System`. -/
def System : String := "cattle-system"

/-! ## The builder -/

def OnChangeInstallSUC (ext : Externals) (cluster : Cluster) (status : ClusterStatus) :
    List ManagedChart × ClusterStatus × Option Error :=
  match cluster.spec.rkeConfig with
  | none => ([], status, none)
  | some _ =>
    match ext.NewVersion cluster.spec.kubernetesVersion with
    | .error err => ([], status, some err)
    | .ok currentVersion =>
      let pspEnabled := if currentVersion.LessThan Kubernetes125 then true else false
      let managedChartName :=
        Limit ext (ext.SafeConcatName [cluster.name, "managed", "system-upgrade-controller"]) 48
      let mcc : ManagedChart :=
        { objectMeta := { namespace_ := cluster.namespace_, name := managedChartName }
          spec :=
            { defaultNamespace := System
              repoName := "rancher-charts"
              chart := "system-upgrade-controller"
              version := ext.chartVersion
              values := some
                { data :=
                    [("global", Value.map
                      [("cattle", Value.map
                        [("systemDefaultRegistry", Value.str (ext.GetPrivateRepoURLFromCluster cluster)),
                         ("psp", Value.map [("enabled", Value.bool pspEnabled)])])])] }
              targets :=
                [{ clusterName := cluster.name
                   clusterSelector := some
                     { matchExpressions :=
                         [{ key := "provisioning.cattle.io/unmanaged-system-agent"
                            operator := "DoesNotExist" }] } }] } }
      ([mcc], status, none)

/-! ## The reconciler -/

/-- The bundle name the reconciler looks up. -/
def bundleName (ext : Externals) (obj : RKEControlPlane) : String :=
  "mcc-" ++ Limit ext (ext.SafeConcatName [obj.name, "managed", "system-upgrade-controller"]) 48

def syncSystemUpgradeControllerStatus (ext : Externals) (h : handler) (obj : RKEControlPlane)
    (status : RKEControlPlaneStatus) : Option (RKEControlPlaneStatus × Option Error) :=
  match h.bundles ClustersDefaultNamespace (bundleName ext obj) with
  | .error err =>
    if err.isNotFound then
      some (SystemUpgradeControllerReady.False status, none)
    else
      some (status, some err)
  | .ok sucBundle =>
    let status := SystemUpgradeControllerReady.Unknown status
    if sucBundle.status.summary.ready ≠ sucBundle.status.summary.desiredReady then
      if sucBundle.status.summary.errApplied ≠ 0 ∧ sucBundle.status.summary.nonReadyResources.length > 0 then
        let nonReady := sucBundle.status.summary.nonReadyResources
        match nonReady[0]? with
        | none => none
        | some r =>
          some (SystemUpgradeControllerReady.Reason status
            ("Error Encountered Waiting for System Upgrade Controller Deployment To Roll Out: " ++ r.message), none)
      else
        some (SystemUpgradeControllerReady.Reason status
          "Waiting for System Upgrade Controller Deployment roll out", none)
    else
      let valuesYamlAvailable :=
        match sucBundle.spec.helm with
        | none => false
        | some helm => helm.values.isSome
      if !valuesYamlAvailable then
        some (SystemUpgradeControllerReady.Reason status
          "Waiting for Upgraded System Upgrade Controller Deployment", none)
      else
        let status := SystemUpgradeControllerReady.Reason status
          "Waiting for System Upgrade Controller Bundle Update"
        match sucBundle.spec.helm with
        | none => none
        | some helm =>
          match helm.values with
          | none => none
          | some values =>
            let data := values.data
            match asMap (data.lookup "global") with
            | none => some (status, none)
            | some global =>
              match asMap (global.lookup "cattle") with
              | none => some (status, none)
              | some cattle =>
                match asMap (cattle.lookup "psp") with
                | none => some (status, none)
                | some psp =>
                  match ext.NewVersion obj.spec.kubernetesVersion with
                  | .error err => some (status, some err)
                  | .ok currentVersion =>
                    match asBool (psp.lookup "enabled") with
                    | none => some (status, none)
                    | some enabled =>
                      if !currentVersion.LessThan Kubernetes125 && enabled then
                        some (SystemUpgradeControllerReady.Reason status
                          "System Upgrade Controller Not Ready", none)
                      else
                        some (SystemUpgradeControllerReady.True status, none)

/-! ## Observation helpers used to state the properties -/

/-- The applied helm values of a bundle, `none` when `Spec.Helm` or `Spec.Helm.Values` is nil. -/
def appliedValues (b : Bundle) : Option GenericMap :=
  match b.spec.helm with
  | none => none
  | some helm => helm.values

/-- The map found at the path `global.cattle.psp`, `none` when a level is missing or is not a map. -/
def pspMap (data : List (String × Value)) : Option (List (String × Value)) :=
  match asMap (data.lookup "global") with
  | none => none
  | some g =>
    match asMap (g.lookup "cattle") with
    | none => none
    | some c => asMap (c.lookup "psp")

/-- The boolean found at the path `global.cattle.psp.enabled`, `none` when a level is missing or
the leaf is not a boolean. -/
def pspEnabledAt (data : List (String × Value)) : Option Bool :=
  match pspMap data with
  | none => none
  | some psp => asBool (psp.lookup "enabled")

/-- The state of the `SystemUpgradeControllerReady` condition of a status. -/
def conditionState (status : RKEControlPlaneStatus) : String :=
  status.systemUpgradeControllerReady.status

/-- The reason of the `SystemUpgradeControllerReady` condition of a status. -/
def conditionReason (status : RKEControlPlaneStatus) : String :=
  status.systemUpgradeControllerReady.reason

/-- The outcome of the bundle lookup the reconciler makes for an object. -/
def lookupOutcome (ext : Externals) (h : handler) (obj : RKEControlPlane) : Except Error Bundle :=
  h.bundles ClustersDefaultNamespace (bundleName ext obj)

/-- The status the reconciler holds while it inspects the applied values. -/
def inspectingStatus (status : RKEControlPlaneStatus) : RKEControlPlaneStatus :=
  SystemUpgradeControllerReady.Reason (SystemUpgradeControllerReady.Unknown status)
    "Waiting for System Upgrade Controller Bundle Update"

/-- The reason written while the bundle is rolling out. -/
def rollOutReason (summary : BundleSummary) : String :=
  match summary.nonReadyResources with
  | [] => "Waiting for System Upgrade Controller Deployment roll out"
  | r :: _ =>
    if summary.errApplied ≠ 0 then
      "Error Encountered Waiting for System Upgrade Controller Deployment To Roll Out: " ++ r.message
    else "Waiting for System Upgrade Controller Deployment roll out"

/-- The last steps of the reconciler, once the `psp` map has been found. -/
def decideOnPsp (ext : Externals) (obj : RKEControlPlane) (status : RKEControlPlaneStatus)
    (psp : List (String × Value)) : Option (RKEControlPlaneStatus × Option Error) :=
  match ext.NewVersion obj.spec.kubernetesVersion with
  | .error err => some (status, some err)
  | .ok currentVersion =>
    match asBool (psp.lookup "enabled") with
    | none => some (status, none)
    | some enabled =>
      if !currentVersion.LessThan Kubernetes125 && enabled then
        some (SystemUpgradeControllerReady.Reason status "System Upgrade Controller Not Ready", none)
      else
        some (SystemUpgradeControllerReady.True status, none)

/-- Semantic-version precedence of `v` below a release `o` (a version without pre-release), in
the words of the semver rules: the numeric triple is lexicographically smaller, or it is equal and
`v` is a pre-release. -/
def precedesRelease (v o : Version) : Prop :=
  v.major < o.major ∨ (v.major = o.major ∧ (v.minor < o.minor ∨ (v.minor = o.minor ∧
    (v.patch < o.patch ∨ (v.patch = o.patch ∧ v.pre ≠ "")))))

instance (v o : Version) : Decidable (precedesRelease v o) := by
  unfold precedesRelease
  infer_instance

/-! ## Sample instances used to exercise the definitions -/

/-- A parser for the plain dotted subset of version strings, `MAJOR[.MINOR[.PATCH]]` with an
optional leading `v`; every other string is rejected. It instantiates `Externals.NewVersion`
where a concrete parser is needed. -/
def parsePlainVersion (s : String) : Except Error Version :=
  let cs := match s.data with
    | 'v' :: rest => rest
    | rest => rest
  match (splitDots cs).map parseUint with
  | [some a] => .ok { major := a, minor := 0, patch := 0, pre := "", metadata := "" }
  | [some a, some b] => .ok { major := a, minor := b, patch := 0, pre := "", metadata := "" }
  | [some a, some b, some c] => .ok { major := a, minor := b, patch := c, pre := "", metadata := "" }
  | _ => .error { isNotFound := false, message := "Invalid Semantic Version" }

/-- A concrete set of collaborators. -/
def sampleExternals : Externals :=
  { NewVersion := parsePlainVersion
    SafeConcatName := fun parts => "-".intercalate parts
    md5Hex := fun _ => "d41d8cd98f00b204e9800998ecf8427e"
    chartVersion := "102.1.0"
    GetPrivateRepoURLFromCluster := fun _ => "" }

/-- Helm values with the given `global.cattle.psp.enabled` flag. -/
def sampleValues (flag : Bool) : GenericMap :=
  { data := [("global", Value.map [("cattle", Value.map [("psp", Value.map [("enabled", Value.bool flag)])])])] }

/-- A bundle with the given counts and applied values. -/
def sampleBundle (ready desired : Int) (values : Option GenericMap) : Bundle :=
  { spec := { helm := some { values := values } }
    status := { summary := { ready := ready, desiredReady := desired, errApplied := 0, nonReadyResources := [] } } }

/-- A handler whose lookup always gives the same outcome. -/
def constHandler (r : Except Error Bundle) : handler :=
  { bundles := fun _ _ => r }

/-- A control-plane object with the given version string. -/
def sampleObj (version : String) : RKEControlPlane :=
  { name := "c-m-abc", spec := { kubernetesVersion := version } }

/-- A status whose condition has the given state and reason. -/
def sampleStatus (state reason : String) : RKEControlPlaneStatus :=
  { systemUpgradeControllerReady := { status := state, reason := reason }, otherConditions := [] }

/-- A bundle with 2 of 3 ready, the given error count and the given non-ready resources. -/
def stalledBundle (errApplied : Int) (nonReady : List NonReadyResource) : Bundle :=
  { spec := { helm := some { values := some (sampleValues true) } }
    status := { summary := { ready := 2, desiredReady := 3, errApplied := errApplied,
                             nonReadyResources := nonReady } } }

/-- A provisioning cluster with the given name, RKE configuration and version string. -/
def sampleCluster (name : String) (rkeConfig : Option Unit) (version : String) : Cluster :=
  { name := name, namespace_ := "fleet-default",
    spec := { rkeConfig := rkeConfig, kubernetesVersion := version } }

/-- A cluster status. -/
def sampleClusterStatus : ClusterStatus :=
  { ready := false, observedGeneration := 1 }

/-! ## Branch lemmas for the reconciler -/

theorem sync_not_found {ext : Externals} {h : handler} {obj : RKEControlPlane} {e : Error}
    (status : RKEControlPlaneStatus)
    (hget : lookupOutcome ext h obj = .error e) (hnf : e.isNotFound = true) :
    syncSystemUpgradeControllerStatus ext h obj status =
      some (SystemUpgradeControllerReady.False status, none) := by
  unfold lookupOutcome at hget
  simp [syncSystemUpgradeControllerStatus, hget, hnf]

theorem sync_lookup_error {ext : Externals} {h : handler} {obj : RKEControlPlane} {e : Error}
    (status : RKEControlPlaneStatus)
    (hget : lookupOutcome ext h obj = .error e) (hnf : e.isNotFound = false) :
    syncSystemUpgradeControllerStatus ext h obj status = some (status, some e) := by
  unfold lookupOutcome at hget
  simp [syncSystemUpgradeControllerStatus, hget, hnf]

theorem sync_rolling_out {ext : Externals} {h : handler} {obj : RKEControlPlane} {b : Bundle}
    (status : RKEControlPlaneStatus)
    (hget : lookupOutcome ext h obj = .ok b)
    (hne : b.status.summary.ready ≠ b.status.summary.desiredReady) :
    syncSystemUpgradeControllerStatus ext h obj status =
      some (SystemUpgradeControllerReady.Reason (SystemUpgradeControllerReady.Unknown status)
        (rollOutReason b.status.summary), none) := by
  unfold lookupOutcome at hget
  unfold rollOutReason
  cases hl : b.status.summary.nonReadyResources with
  | nil => simp [syncSystemUpgradeControllerStatus, hget, hne, hl]
  | cons r rs =>
    by_cases he : b.status.summary.errApplied = 0
    · simp [syncSystemUpgradeControllerStatus, hget, hne, hl, he]
    · simp [syncSystemUpgradeControllerStatus, hget, hne, hl, he]

theorem sync_values_absent {ext : Externals} {h : handler} {obj : RKEControlPlane} {b : Bundle}
    (status : RKEControlPlaneStatus)
    (hget : lookupOutcome ext h obj = .ok b)
    (heq : b.status.summary.ready = b.status.summary.desiredReady)
    (habs : appliedValues b = none) :
    syncSystemUpgradeControllerStatus ext h obj status =
      some (SystemUpgradeControllerReady.Reason (SystemUpgradeControllerReady.Unknown status)
        "Waiting for Upgraded System Upgrade Controller Deployment", none) := by
  unfold lookupOutcome at hget
  unfold appliedValues at habs
  cases hh : b.spec.helm with
  | none => simp [syncSystemUpgradeControllerStatus, hget, heq, hh]
  | some helm =>
    rw [hh] at habs
    simp only at habs
    simp [syncSystemUpgradeControllerStatus, hget, heq, hh, habs]

theorem sync_no_psp_map {ext : Externals} {h : handler} {obj : RKEControlPlane} {b : Bundle}
    {values : GenericMap} (status : RKEControlPlaneStatus)
    (hget : lookupOutcome ext h obj = .ok b)
    (heq : b.status.summary.ready = b.status.summary.desiredReady)
    (hval : appliedValues b = some values) (hpsp : pspMap values.data = none) :
    syncSystemUpgradeControllerStatus ext h obj status = some (inspectingStatus status, none) := by
  unfold lookupOutcome at hget
  unfold appliedValues at hval
  cases hh : b.spec.helm with
  | none => rw [hh] at hval; simp at hval
  | some helm =>
    rw [hh] at hval
    simp only at hval
    unfold pspMap at hpsp
    cases hg : asMap (List.lookup "global" values.data) with
    | none => simp [syncSystemUpgradeControllerStatus, hget, heq, hh, hval, hg, inspectingStatus]
    | some g =>
      rw [hg] at hpsp
      simp only at hpsp
      cases hc : asMap (List.lookup "cattle" g) with
      | none => simp [syncSystemUpgradeControllerStatus, hget, heq, hh, hval, hg, hc, inspectingStatus]
      | some c =>
        rw [hc] at hpsp
        simp only at hpsp
        simp [syncSystemUpgradeControllerStatus, hget, heq, hh, hval, hg, hc, hpsp, inspectingStatus]

theorem sync_psp_map {ext : Externals} {h : handler} {obj : RKEControlPlane} {b : Bundle}
    {values : GenericMap} {psp : List (String × Value)} (status : RKEControlPlaneStatus)
    (hget : lookupOutcome ext h obj = .ok b)
    (heq : b.status.summary.ready = b.status.summary.desiredReady)
    (hval : appliedValues b = some values) (hpsp : pspMap values.data = some psp) :
    syncSystemUpgradeControllerStatus ext h obj status =
      decideOnPsp ext obj (inspectingStatus status) psp := by
  unfold lookupOutcome at hget
  unfold appliedValues at hval
  cases hh : b.spec.helm with
  | none => rw [hh] at hval; simp at hval
  | some helm =>
    rw [hh] at hval
    simp only at hval
    unfold pspMap at hpsp
    cases hg : asMap (List.lookup "global" values.data) with
    | none => rw [hg] at hpsp; simp at hpsp
    | some g =>
      rw [hg] at hpsp
      simp only at hpsp
      cases hc : asMap (List.lookup "cattle" g) with
      | none => rw [hc] at hpsp; simp at hpsp
      | some c =>
        rw [hc] at hpsp
        simp only at hpsp
        simp only [syncSystemUpgradeControllerStatus, hget, heq, hh, hval, hg, hc, hpsp, inspectingStatus,
          decideOnPsp, ne_eq, not_true_eq_false, if_false, Option.isSome_some, Bool.not_true]
        rfl

/-! ## Facts about the condition setters -/

theorem state_False (status : RKEControlPlaneStatus) :
    conditionState (SystemUpgradeControllerReady.False status) = "False" := rfl

theorem state_True (status : RKEControlPlaneStatus) :
    conditionState (SystemUpgradeControllerReady.True status) = "True" := rfl

theorem state_Reason_Unknown (status : RKEControlPlaneStatus) (reason : String) :
    conditionState (SystemUpgradeControllerReady.Reason
      (SystemUpgradeControllerReady.Unknown status) reason) = "Unknown" := rfl

theorem state_inspecting (status : RKEControlPlaneStatus) :
    conditionState (inspectingStatus status) = "Unknown" := rfl

theorem state_Reason_inspecting (status : RKEControlPlaneStatus) (reason : String) :
    conditionState (SystemUpgradeControllerReady.Reason (inspectingStatus status) reason) = "Unknown" :=
  rfl

theorem pspEnabledAt_eq_some {data : List (String × Value)} {enabled : Bool}
    (hflag : pspEnabledAt data = some enabled) :
    ∃ psp, pspMap data = some psp ∧ asBool (psp.lookup "enabled") = some enabled := by
  unfold pspEnabledAt at hflag
  cases hp : pspMap data with
  | none => rw [hp] at hflag; simp at hflag
  | some psp => rw [hp] at hflag; exact ⟨psp, rfl, hflag⟩

/-- The outcome of the last steps in terms of the parsed version and the decoded flag. -/
theorem decideOnPsp_parsed {ext : Externals} {obj : RKEControlPlane} {psp : List (String × Value)}
    {v : Version} {enabled : Bool} (status : RKEControlPlaneStatus)
    (hver : ext.NewVersion obj.spec.kubernetesVersion = .ok v)
    (hen : asBool (psp.lookup "enabled") = some enabled) :
    decideOnPsp ext obj status psp =
      if enabled = true ∧ v.LessThan Kubernetes125 = false then
        some (SystemUpgradeControllerReady.Reason status "System Upgrade Controller Not Ready", none)
      else some (SystemUpgradeControllerReady.True status, none) := by
  unfold decideOnPsp
  rw [hver]
  simp only [hen]
  cases enabled <;> cases v.LessThan Kubernetes125 <;> simp

/-! ## C1: when the condition becomes True -/

/-- C1, as stated, fails: when the lookup fails with an error other than not-found, the status is
returned as given, so a status that already carried the state True is returned with that state
although the lookup did not succeed. -/
theorem C1_counterexample :
    ¬ ((∃ st e, syncSystemUpgradeControllerStatus sampleExternals
          (constHandler (.error { isNotFound := false, message := "connection refused" }))
          (sampleObj "1.26.0") (sampleStatus "True" "") = some (st, e) ∧ conditionState st = "True") ↔
       (∃ b values enabled v,
          lookupOutcome sampleExternals
            (constHandler (.error { isNotFound := false, message := "connection refused" }))
            (sampleObj "1.26.0") = .ok b ∧
          b.status.summary.ready = b.status.summary.desiredReady ∧
          appliedValues b = some values ∧ pspEnabledAt values.data = some enabled ∧
          sampleExternals.NewVersion (sampleObj "1.26.0").spec.kubernetesVersion = .ok v ∧
          ¬ (enabled = true ∧ v.LessThan Kubernetes125 = false))) := by
  intro hiff
  have hl : ∃ st e, syncSystemUpgradeControllerStatus sampleExternals
      (constHandler (.error { isNotFound := false, message := "connection refused" }))
      (sampleObj "1.26.0") (sampleStatus "True" "") = some (st, e) ∧ conditionState st = "True" :=
    ⟨sampleStatus "True" "", some { isNotFound := false, message := "connection refused" }, rfl, rfl⟩
  obtain ⟨b, _, _, _, hget, _⟩ := hiff.mp hl
  simp [lookupOutcome, constHandler] at hget

/-- C1, amended: the returned condition state is True exactly when either the lookup succeeds,
Ready equals DesiredReady, the helm values are present, `global.cattle.psp.enabled` is a boolean,
the version parses and it is not the case that the flag is true and the version is not below
1.25.0; or the lookup fails with an error other than not-found and the given status already
carried the state True. -/
theorem C1_true_iff (ext : Externals) (h : handler) (obj : RKEControlPlane)
    (status : RKEControlPlaneStatus) :
    (∃ st e, syncSystemUpgradeControllerStatus ext h obj status = some (st, e) ∧
        conditionState st = "True") ↔
      ((∃ b values enabled v,
          lookupOutcome ext h obj = .ok b ∧
          b.status.summary.ready = b.status.summary.desiredReady ∧
          appliedValues b = some values ∧ pspEnabledAt values.data = some enabled ∧
          ext.NewVersion obj.spec.kubernetesVersion = .ok v ∧
          ¬ (enabled = true ∧ v.LessThan Kubernetes125 = false)) ∨
       (∃ err, lookupOutcome ext h obj = .error err ∧ err.isNotFound = false ∧
          conditionState status = "True")) := by
  cases hget : lookupOutcome ext h obj with
  | error err =>
    cases hnf : err.isNotFound with
    | true =>
      rw [sync_not_found status hget hnf]
      constructor
      · rintro ⟨st, e, heq, hst⟩
        simp only [Option.some.injEq, Prod.mk.injEq] at heq
        rw [← heq.1, state_False] at hst
        exact absurd hst (by decide)
      · rintro (⟨b, _, _, _, hb, _⟩ | ⟨e, he, hfalse, _⟩)
        · cases hb
        · cases he
          rw [hnf] at hfalse
          cases hfalse
    | false =>
      rw [sync_lookup_error status hget hnf]
      constructor
      · rintro ⟨st, e, heq, hst⟩
        simp only [Option.some.injEq, Prod.mk.injEq] at heq
        rw [← heq.1] at hst
        exact Or.inr ⟨err, rfl, hnf, hst⟩
      · rintro (⟨b, _, _, _, hb, _⟩ | ⟨e, _, _, hst⟩)
        · cases hb
        · exact ⟨status, some err, rfl, hst⟩
  | ok b =>
    have hno : ¬ ∃ err, (Except.ok b : Except Error Bundle) = .error err ∧ err.isNotFound = false ∧
        conditionState status = "True" := by
      rintro ⟨_, he, _⟩
      cases he
    by_cases heq : b.status.summary.ready = b.status.summary.desiredReady
    swap
    · rw [sync_rolling_out status hget heq]
      constructor
      · rintro ⟨st, e, hres, hst⟩
        simp only [Option.some.injEq, Prod.mk.injEq] at hres
        rw [← hres.1, state_Reason_Unknown] at hst
        exact absurd hst (by decide)
      · rintro (⟨b', _, _, _, hb, heq', _⟩ | hr)
        · cases hb
          exact absurd heq' heq
        · exact absurd hr hno
    cases hval : appliedValues b with
    | none =>
      rw [sync_values_absent status hget heq hval]
      constructor
      · rintro ⟨st, e, hres, hst⟩
        simp only [Option.some.injEq, Prod.mk.injEq] at hres
        rw [← hres.1, state_Reason_Unknown] at hst
        exact absurd hst (by decide)
      · rintro (⟨b', _, _, _, hb, _, hval', _⟩ | hr)
        · cases hb
          rw [hval] at hval'
          cases hval'
        · exact absurd hr hno
    | some values =>
      cases hpsp : pspMap values.data with
      | none =>
        rw [sync_no_psp_map status hget heq hval hpsp]
        constructor
        · rintro ⟨st, e, hres, hst⟩
          simp only [Option.some.injEq, Prod.mk.injEq] at hres
          rw [← hres.1, state_inspecting] at hst
          exact absurd hst (by decide)
        · rintro (⟨b', values', _, _, hb, _, hval', hflag, _⟩ | hr)
          · cases hb
            rw [hval] at hval'
            cases hval'
            obtain ⟨psp, hp, _⟩ := pspEnabledAt_eq_some hflag
            rw [hpsp] at hp
            cases hp
          · exact absurd hr hno
      | some psp =>
        rw [sync_psp_map status hget heq hval hpsp]
        cases hver : ext.NewVersion obj.spec.kubernetesVersion with
        | error perr =>
          constructor
          · rintro ⟨st, e, hres, hst⟩
            simp only [decideOnPsp, hver, Option.some.injEq, Prod.mk.injEq] at hres
            rw [← hres.1, state_inspecting] at hst
            exact absurd hst (by decide)
          · rintro (⟨b', _, _, _, hb, _, _, _, hv, _⟩ | hr)
            · cases hv
            · exact absurd hr hno
        | ok v =>
          cases hen : asBool (psp.lookup "enabled") with
          | none =>
            constructor
            · rintro ⟨st, e, hres, hst⟩
              simp only [decideOnPsp, hver, hen, Option.some.injEq, Prod.mk.injEq] at hres
              rw [← hres.1, state_inspecting] at hst
              exact absurd hst (by decide)
            · rintro (⟨b', values', _, _, hb, _, hval', hflag, _⟩ | hr)
              · cases hb
                rw [hval] at hval'
                cases hval'
                obtain ⟨psp', hp, hen'⟩ := pspEnabledAt_eq_some hflag
                rw [hpsp] at hp
                cases hp
                rw [hen] at hen'
                cases hen'
              · exact absurd hr hno
          | some enabled =>
            rw [decideOnPsp_parsed _ hver hen]
            have hflag : pspEnabledAt values.data = some enabled := by
              unfold pspEnabledAt
              rw [hpsp]
              exact hen
            by_cases hc : enabled = true ∧ v.LessThan Kubernetes125 = false
            · rw [if_pos hc]
              constructor
              · rintro ⟨st, e, hres, hst⟩
                simp only [Option.some.injEq, Prod.mk.injEq] at hres
                rw [← hres.1, state_Reason_inspecting] at hst
                exact absurd hst (by decide)
              · rintro (⟨b', values', enabled', v', hb, _, hval', hflag', hv, hnot⟩ | hr)
                · cases hb
                  rw [hval] at hval'
                  cases hval'
                  rw [hflag] at hflag'
                  cases hflag'
                  cases hv
                  exact absurd hc hnot
                · exact absurd hr hno
            · rw [if_neg hc]
              constructor
              · intro _
                exact Or.inl ⟨b, values, enabled, v, rfl, heq, hval, hflag, rfl, hc⟩
              · intro _
                exact ⟨_, none, rfl, state_True _⟩

/-! ## C2: psp enabled on a version not below the threshold -/

/-- C2: for a found bundle with Ready equal to DesiredReady whose applied values carry
`global.cattle.psp.enabled = true`, and a parseable version that is not below 1.25.0, the
reconciler returns no error and the condition state Unknown, which is not True. -/
theorem C2_incompatible_is_unknown (ext : Externals) (h : handler) (obj : RKEControlPlane)
    (status : RKEControlPlaneStatus) (b : Bundle) (values : GenericMap) (v : Version)
    (hget : lookupOutcome ext h obj = .ok b)
    (heq : b.status.summary.ready = b.status.summary.desiredReady)
    (hval : appliedValues b = some values)
    (hflag : pspEnabledAt values.data = some true)
    (hver : ext.NewVersion obj.spec.kubernetesVersion = .ok v)
    (hnb : v.LessThan Kubernetes125 = false) :
    ∃ st, syncSystemUpgradeControllerStatus ext h obj status = some (st, none) ∧
      conditionState st = "Unknown" ∧ conditionState st ≠ "True" := by
  obtain ⟨psp, hpsp, hen⟩ := pspEnabledAt_eq_some hflag
  rw [sync_psp_map status hget heq hval hpsp, decideOnPsp_parsed _ hver hen,
    if_pos ⟨rfl, hnb⟩]
  refine ⟨_, rfl, state_Reason_inspecting _ _, ?_⟩
  rw [state_Reason_inspecting]
  decide

/-- C2 at the threshold itself: flag true, version 1.25.0, prior state True. -/
theorem C2_incompatible_is_unknown_witness :
    ∃ st, syncSystemUpgradeControllerStatus sampleExternals
        (constHandler (.ok (sampleBundle 3 3 (some (sampleValues true))))) (sampleObj "1.25.0")
        (sampleStatus "True" "") = some (st, none) ∧
      conditionState st = "Unknown" ∧ conditionState st ≠ "True" :=
  C2_incompatible_is_unknown sampleExternals
    (constHandler (.ok (sampleBundle 3 3 (some (sampleValues true))))) (sampleObj "1.25.0")
    (sampleStatus "True" "") (sampleBundle 3 3 (some (sampleValues true))) (sampleValues true)
    Kubernetes125 rfl rfl rfl rfl rfl (by decide)

/-! ## C3: a bundle that is rolling out -/

/-- C3: for a found bundle with Ready different from DesiredReady the reconciler returns no error
and the condition state Unknown, and the returned status is the same for every other found bundle
with the same summary, whatever its applied values, and for every object, whatever its version
string. -/
theorem C3_rolling_out_ignores_values (ext : Externals) (h : handler) (obj : RKEControlPlane)
    (status : RKEControlPlaneStatus) (b : Bundle)
    (hget : lookupOutcome ext h obj = .ok b)
    (hne : b.status.summary.ready ≠ b.status.summary.desiredReady) :
    ∃ st, syncSystemUpgradeControllerStatus ext h obj status = some (st, none) ∧
      conditionState st = "Unknown" ∧
      ∀ (h' : handler) (obj' : RKEControlPlane) (b' : Bundle),
        lookupOutcome ext h' obj' = .ok b' → b'.status.summary = b.status.summary →
        syncSystemUpgradeControllerStatus ext h' obj' status = some (st, none) := by
  refine ⟨_, sync_rolling_out status hget hne, state_Reason_Unknown _ _, ?_⟩
  intro h' obj' b' hget' hsum
  have hne' : b'.status.summary.ready ≠ b'.status.summary.desiredReady := by
    rw [hsum]
    exact hne
  rw [sync_rolling_out status hget' hne', hsum]

/-- C3 on a bundle with 2 of 3 ready, flag true and an unparseable version string. -/
theorem C3_rolling_out_ignores_values_witness :
    ∃ st, syncSystemUpgradeControllerStatus sampleExternals
        (constHandler (.ok (sampleBundle 2 3 (some (sampleValues true))))) (sampleObj "not-a-version")
        (sampleStatus "" "") = some (st, none) ∧
      conditionState st = "Unknown" ∧
      ∀ (h' : handler) (obj' : RKEControlPlane) (b' : Bundle),
        lookupOutcome sampleExternals h' obj' = .ok b' →
        b'.status.summary = (sampleBundle 2 3 (some (sampleValues true))).status.summary →
        syncSystemUpgradeControllerStatus sampleExternals h' obj' (sampleStatus "" "") =
          some (st, none) :=
  C3_rolling_out_ignores_values sampleExternals
    (constHandler (.ok (sampleBundle 2 3 (some (sampleValues true))))) (sampleObj "not-a-version")
    (sampleStatus "" "") (sampleBundle 2 3 (some (sampleValues true))) rfl (by decide)

/-! ## C4: the bundle is not found -/

/-- C4: when the lookup returns not-found the reconciler returns a nil error and the condition
state False, for every object; and on every pass that returns no error, the condition state is
False only if the lookup returned not-found. -/
theorem C4_false_iff_not_found (ext : Externals) (h : handler) (obj : RKEControlPlane)
    (status : RKEControlPlaneStatus) :
    (∀ err, lookupOutcome ext h obj = .error err → err.isNotFound = true →
      ∃ st, syncSystemUpgradeControllerStatus ext h obj status = some (st, none) ∧
        conditionState st = "False") ∧
    (∀ st, syncSystemUpgradeControllerStatus ext h obj status = some (st, none) →
      conditionState st = "False" →
      ∃ err, lookupOutcome ext h obj = .error err ∧ err.isNotFound = true) := by
  constructor
  · intro err hget hnf
    exact ⟨_, sync_not_found status hget hnf, state_False _⟩
  · intro st hres hst
    cases hget : lookupOutcome ext h obj with
    | error err =>
      cases hnf : err.isNotFound with
      | true => exact ⟨err, rfl, hnf⟩
      | false =>
        rw [sync_lookup_error status hget hnf] at hres
        simp at hres
    | ok b =>
      exfalso
      by_cases heq : b.status.summary.ready = b.status.summary.desiredReady
      swap
      · rw [sync_rolling_out status hget heq] at hres
        simp only [Option.some.injEq, Prod.mk.injEq, and_true] at hres
        rw [← hres, state_Reason_Unknown] at hst
        exact absurd hst (by decide)
      cases hval : appliedValues b with
      | none =>
        rw [sync_values_absent status hget heq hval] at hres
        simp only [Option.some.injEq, Prod.mk.injEq, and_true] at hres
        rw [← hres, state_Reason_Unknown] at hst
        exact absurd hst (by decide)
      | some values =>
        cases hpsp : pspMap values.data with
        | none =>
          rw [sync_no_psp_map status hget heq hval hpsp] at hres
          simp only [Option.some.injEq, Prod.mk.injEq, and_true] at hres
          rw [← hres, state_inspecting] at hst
          exact absurd hst (by decide)
        | some psp =>
          rw [sync_psp_map status hget heq hval hpsp] at hres
          cases hver : ext.NewVersion obj.spec.kubernetesVersion with
          | error perr =>
            simp [decideOnPsp, hver] at hres
          | ok v =>
            cases hen : asBool (psp.lookup "enabled") with
            | none =>
              simp only [decideOnPsp, hver, hen, Option.some.injEq, Prod.mk.injEq, and_true] at hres
              rw [← hres, state_inspecting] at hst
              exact absurd hst (by decide)
            | some enabled =>
              rw [decideOnPsp_parsed _ hver hen] at hres
              split at hres
              · simp only [Option.some.injEq, Prod.mk.injEq, and_true] at hres
                rw [← hres, state_Reason_inspecting] at hst
                exact absurd hst (by decide)
              · simp only [Option.some.injEq, Prod.mk.injEq, and_true] at hres
                rw [← hres, state_True] at hst
                exact absurd hst (by decide)

/-- C4 on a not-found lookup for an object whose version string is unparseable. -/
theorem C4_false_iff_not_found_witness :
    ∃ st, syncSystemUpgradeControllerStatus sampleExternals
        (constHandler (.error { isNotFound := true, message := "bundle not found" }))
        (sampleObj "not-a-version") (sampleStatus "True" "") = some (st, none) ∧
      conditionState st = "False" :=
  (C4_false_iff_not_found sampleExternals
    (constHandler (.error { isNotFound := true, message := "bundle not found" }))
    (sampleObj "not-a-version") (sampleStatus "True" "")).1
    { isNotFound := true, message := "bundle not found" } rfl rfl

/-! ## C5: the flag the builder writes -/

theorem compareSegment_eq_zero (a b : Nat) : compareSegment a b = 0 ↔ a = b := by
  unfold compareSegment
  split_ifs <;> simp <;> omega

theorem compareSegment_neg (a b : Nat) : compareSegment a b < 0 ↔ a < b := by
  unfold compareSegment
  split_ifs <;> simp <;> omega

/-- Against a release version, `LessThan` is semantic-version precedence. -/
theorem lessThan_release (v o : Version) (ho : o.pre = "") :
    v.LessThan o = true ↔ precedesRelease v o := by
  unfold Version.LessThan
  rw [decide_eq_true_eq]
  unfold Version.Compare precedesRelease
  dsimp only
  by_cases h1 : compareSegment v.major o.major = 0
  swap
  · rw [if_pos h1, compareSegment_neg]
    have := mt (compareSegment_eq_zero v.major o.major).mpr h1
    constructor
    · exact fun hlt => Or.inl hlt
    · rintro (hlt | ⟨he, _⟩)
      · exact hlt
      · exact absurd he this
  have e1 := (compareSegment_eq_zero _ _).mp h1
  rw [if_neg (not_not.mpr h1)]
  by_cases h2 : compareSegment v.minor o.minor = 0
  swap
  · rw [if_pos h2, compareSegment_neg]
    have := mt (compareSegment_eq_zero v.minor o.minor).mpr h2
    constructor
    · exact fun hlt => Or.inr ⟨e1, Or.inl hlt⟩
    · rintro (hlt | ⟨_, hlt | ⟨he, _⟩⟩)
      · omega
      · exact hlt
      · exact absurd he this
  have e2 := (compareSegment_eq_zero _ _).mp h2
  rw [if_neg (not_not.mpr h2)]
  by_cases h3 : compareSegment v.patch o.patch = 0
  swap
  · rw [if_pos h3, compareSegment_neg]
    have := mt (compareSegment_eq_zero v.patch o.patch).mpr h3
    constructor
    · exact fun hlt => Or.inr ⟨e1, Or.inr ⟨e2, Or.inl hlt⟩⟩
    · rintro (hlt | ⟨_, hlt | ⟨_, hlt | ⟨he, _⟩⟩⟩)
      · omega
      · omega
      · exact hlt
      · exact absurd he this
  have e3 := (compareSegment_eq_zero _ _).mp h3
  rw [if_neg (not_not.mpr h3)]
  by_cases hp : v.pre = ""
  · rw [if_pos ⟨hp, ho⟩]
    constructor
    · intro hlt
      omega
    · rintro (hlt | ⟨_, hlt | ⟨_, hlt | ⟨_, hne⟩⟩⟩)
      · omega
      · omega
      · omega
      · exact absurd hp hne
  · rw [if_neg (fun hc => hp hc.1), if_neg hp, if_pos ho]
    constructor
    · intro _
      exact Or.inr ⟨e1, Or.inr ⟨e2, Or.inr ⟨e3, hp⟩⟩⟩
    · intro _
      omega

/-- C5: when the builder writes chart values for a parseable version `v`, the value at
`global.cattle.psp.enabled` is a boolean that is true exactly when `v` is strictly below 1.25.0 in
semantic-version order; at 1.25.0 itself it is false. -/
theorem C5_psp_flag_iff_below (ext : Externals) (cluster : Cluster) (status : ClusterStatus)
    (v : Version) (hrke : cluster.spec.rkeConfig ≠ none)
    (hver : ext.NewVersion cluster.spec.kubernetesVersion = .ok v) :
    ∃ mcc values flag,
      OnChangeInstallSUC ext cluster status = ([mcc], status, none) ∧
      mcc.spec.values = some values ∧
      pspEnabledAt values.data = some flag ∧
      (flag = true ↔ v.LessThan Kubernetes125 = true) ∧
      (flag = true ↔ precedesRelease v Kubernetes125) ∧
      (v.major = 1 ∧ v.minor = 25 ∧ v.patch = 0 ∧ v.pre = "" → flag = false) := by
  cases hr : cluster.spec.rkeConfig with
  | none => exact absurd hr hrke
  | some u =>
    have hflag : ∀ flag : Bool, (flag = true ↔ v.LessThan Kubernetes125 = true) →
        (flag = true ↔ precedesRelease v Kubernetes125) ∧
        (v.major = 1 ∧ v.minor = 25 ∧ v.patch = 0 ∧ v.pre = "" → flag = false) := by
      intro flag hiff
      have hprec := hiff.trans (lessThan_release v Kubernetes125 rfl)
      refine ⟨hprec, ?_⟩
      rintro ⟨h1, h2, h3, h4⟩
      cases hf : flag with
      | false => rfl
      | true =>
        have hpr := hprec.mp hf
        simp [precedesRelease, Kubernetes125, h1, h2, h3, h4] at hpr
    simp only [OnChangeInstallSUC, hr, hver]
    refine ⟨_, _, if v.LessThan Kubernetes125 then true else false, rfl, rfl, ?_, ?_, hflag _ ?_⟩
    · simp [pspEnabledAt, pspMap, asMap, asBool, List.lookup]
    · cases v.LessThan Kubernetes125 <;> simp
    · cases v.LessThan Kubernetes125 <;> simp

/-- A cluster with an RKE configuration and the given version string. -/
theorem C5_psp_flag_iff_below_witness :
    ∃ mcc values flag,
      OnChangeInstallSUC sampleExternals
        { name := "c-m-abc", namespace_ := "fleet-default",
          spec := { rkeConfig := some (), kubernetesVersion := "v1.25.0" } }
        { ready := false, observedGeneration := 1 } =
          ([mcc], { ready := false, observedGeneration := 1 }, none) ∧
      mcc.spec.values = some values ∧
      pspEnabledAt values.data = some flag ∧
      (flag = true ↔ Kubernetes125.LessThan Kubernetes125 = true) ∧
      (flag = true ↔ precedesRelease Kubernetes125 Kubernetes125) ∧
      (Kubernetes125.major = 1 ∧ Kubernetes125.minor = 25 ∧ Kubernetes125.patch = 0 ∧
        Kubernetes125.pre = "" → flag = false) :=
  C5_psp_flag_iff_below sampleExternals
    { name := "c-m-abc", namespace_ := "fleet-default",
      spec := { rkeConfig := some (), kubernetesVersion := "v1.25.0" } }
    { ready := false, observedGeneration := 1 } Kubernetes125 (by decide) rfl

/-! ## C6: when the reconciler returns an error -/

/-- C6, as stated, fails: with a not-found lookup and an unparseable version string the
reconciler returns no error. -/
theorem C6_counterexample :
    ¬ ((∃ st e, syncSystemUpgradeControllerStatus sampleExternals
          (constHandler (.error { isNotFound := true, message := "bundle not found" }))
          (sampleObj "not-a-version") (sampleStatus "" "") = some (st, some e)) ↔
       ((∃ err, lookupOutcome sampleExternals
            (constHandler (.error { isNotFound := true, message := "bundle not found" }))
            (sampleObj "not-a-version") = .error err ∧ err.isNotFound = false) ∨
        (∃ perr, sampleExternals.NewVersion (sampleObj "not-a-version").spec.kubernetesVersion =
            .error perr))) := by
  intro hiff
  obtain ⟨st, e, hres⟩ := hiff.mpr (Or.inr ⟨_, rfl⟩)
  have hsync : syncSystemUpgradeControllerStatus sampleExternals
      (constHandler (.error { isNotFound := true, message := "bundle not found" }))
      (sampleObj "not-a-version") (sampleStatus "" "") = some (sampleStatus "False" "", none) := rfl
  rw [hsync] at hres
  simp at hres

/-- C6, amended: the reconciler returns an error exactly when the lookup fails with an error
other than not-found, or the bundle is found with Ready equal to DesiredReady, its helm values are
present and hold the maps `global`, `cattle` and `psp`, and the version string is unparseable. -/
theorem C6_error_iff (ext : Externals) (h : handler) (obj : RKEControlPlane)
    (status : RKEControlPlaneStatus) :
    (∃ st e, syncSystemUpgradeControllerStatus ext h obj status = some (st, some e)) ↔
      ((∃ err, lookupOutcome ext h obj = .error err ∧ err.isNotFound = false) ∨
       (∃ b values psp perr,
          lookupOutcome ext h obj = .ok b ∧
          b.status.summary.ready = b.status.summary.desiredReady ∧
          appliedValues b = some values ∧ pspMap values.data = some psp ∧
          ext.NewVersion obj.spec.kubernetesVersion = .error perr)) := by
  cases hget : lookupOutcome ext h obj with
  | error err =>
    cases hnf : err.isNotFound with
    | true =>
      rw [sync_not_found status hget hnf]
      constructor
      · rintro ⟨st, e, hres⟩
        simp at hres
      · rintro (⟨e, he, hfalse⟩ | ⟨b, _, _, _, hb, _⟩)
        · cases he
          rw [hnf] at hfalse
          cases hfalse
        · cases hb
    | false =>
      rw [sync_lookup_error status hget hnf]
      constructor
      · intro _
        exact Or.inl ⟨err, rfl, hnf⟩
      · intro _
        exact ⟨status, err, rfl⟩
  | ok b =>
    have hno : ¬ ∃ err, (Except.ok b : Except Error Bundle) = .error err ∧ err.isNotFound = false := by
      rintro ⟨_, he, _⟩
      cases he
    by_cases heq : b.status.summary.ready = b.status.summary.desiredReady
    swap
    · rw [sync_rolling_out status hget heq]
      constructor
      · rintro ⟨st, e, hres⟩
        simp at hres
      · rintro (hr | ⟨b', _, _, _, hb, heq', _⟩)
        · exact absurd hr hno
        · cases hb
          exact absurd heq' heq
    cases hval : appliedValues b with
    | none =>
      rw [sync_values_absent status hget heq hval]
      constructor
      · rintro ⟨st, e, hres⟩
        simp at hres
      · rintro (hr | ⟨b', _, _, _, hb, _, hval', _⟩)
        · exact absurd hr hno
        · cases hb
          rw [hval] at hval'
          cases hval'
    | some values =>
      cases hpsp : pspMap values.data with
      | none =>
        rw [sync_no_psp_map status hget heq hval hpsp]
        constructor
        · rintro ⟨st, e, hres⟩
          simp at hres
        · rintro (hr | ⟨b', values', _, _, hb, _, hval', hp, _⟩)
          · exact absurd hr hno
          · cases hb
            rw [hval] at hval'
            cases hval'
            rw [hpsp] at hp
            cases hp
      | some psp =>
        rw [sync_psp_map status hget heq hval hpsp]
        cases hver : ext.NewVersion obj.spec.kubernetesVersion with
        | error perr =>
          constructor
          · intro _
            exact Or.inr ⟨b, values, psp, perr, rfl, heq, hval, hpsp, rfl⟩
          · intro _
            exact ⟨inspectingStatus status, perr, by simp [decideOnPsp, hver]⟩
        | ok v =>
          constructor
          · rintro ⟨st, e, hres⟩
            exfalso
            cases hen : asBool (psp.lookup "enabled") with
            | none => simp [decideOnPsp, hver, hen] at hres
            | some enabled =>
              rw [decideOnPsp_parsed _ hver hen] at hres
              split at hres <;> simp at hres
          · rintro (hr | ⟨b', _, _, _, _, _, _, _, hv⟩)
            · exact absurd hr hno
            · cases hv

/-! ## C7: the status returned with a version-parse error -/

/-- C7, as stated, fails: on a converged bundle whose values hold the `psp` map, an unparseable
version string makes the reconciler return the error together with a status that differs from
the one it was given. -/
theorem C7_counterexample :
    ∃ st e,
      sampleExternals.NewVersion (sampleObj "not-a-version").spec.kubernetesVersion = .error e ∧
      syncSystemUpgradeControllerStatus sampleExternals
        (constHandler (.ok (sampleBundle 3 3 (some (sampleValues true))))) (sampleObj "not-a-version")
        (sampleStatus "True" "") = some (st, some e) ∧
      st ≠ sampleStatus "True" "" :=
  ⟨sampleStatus "Unknown" "Waiting for System Upgrade Controller Bundle Update",
    { isNotFound := false, message := "Invalid Semantic Version" }, rfl, rfl, by decide⟩

/-- C7, amended: when the bundle is found and the reconciler returns an error, the error is the
one the version parser gave, and the status returned with it is the given status with the
condition set to state Unknown and reason "Waiting for System Upgrade Controller Bundle Update";
the other conditions are those given. -/
theorem C7_parse_failure_status (ext : Externals) (h : handler) (obj : RKEControlPlane)
    (status st : RKEControlPlaneStatus) (b : Bundle) (e : Error)
    (hget : lookupOutcome ext h obj = .ok b)
    (hres : syncSystemUpgradeControllerStatus ext h obj status = some (st, some e)) :
    ext.NewVersion obj.spec.kubernetesVersion = .error e ∧
      conditionState st = "Unknown" ∧
      conditionReason st = "Waiting for System Upgrade Controller Bundle Update" ∧
      st.otherConditions = status.otherConditions := by
  by_cases heq : b.status.summary.ready = b.status.summary.desiredReady
  swap
  · rw [sync_rolling_out status hget heq] at hres
    simp at hres
  cases hval : appliedValues b with
  | none =>
    rw [sync_values_absent status hget heq hval] at hres
    simp at hres
  | some values =>
    cases hpsp : pspMap values.data with
    | none =>
      rw [sync_no_psp_map status hget heq hval hpsp] at hres
      simp at hres
    | some psp =>
      rw [sync_psp_map status hget heq hval hpsp] at hres
      cases hver : ext.NewVersion obj.spec.kubernetesVersion with
      | error perr =>
        simp only [decideOnPsp, hver, Option.some.injEq, Prod.mk.injEq] at hres
        obtain ⟨hst, he⟩ := hres
        subst hst
        subst he
        exact ⟨rfl, rfl, rfl, rfl⟩
      | ok v =>
        exfalso
        cases hen : asBool (psp.lookup "enabled") with
        | none => simp [decideOnPsp, hver, hen] at hres
        | some enabled =>
          rw [decideOnPsp_parsed _ hver hen] at hres
          split at hres <;> simp at hres

/-- C7 amended, on a converged bundle with flag true and an unparseable version string. -/
theorem C7_parse_failure_status_witness :
    sampleExternals.NewVersion (sampleObj "not-a-version").spec.kubernetesVersion =
        .error { isNotFound := false, message := "Invalid Semantic Version" } ∧
      conditionState (sampleStatus "Unknown" "Waiting for System Upgrade Controller Bundle Update") =
        "Unknown" ∧
      conditionReason (sampleStatus "Unknown" "Waiting for System Upgrade Controller Bundle Update") =
        "Waiting for System Upgrade Controller Bundle Update" ∧
      (sampleStatus "Unknown" "Waiting for System Upgrade Controller Bundle Update").otherConditions =
        (sampleStatus "True" "").otherConditions :=
  C7_parse_failure_status sampleExternals
    (constHandler (.ok (sampleBundle 3 3 (some (sampleValues true))))) (sampleObj "not-a-version")
    (sampleStatus "True" "")
    (sampleStatus "Unknown" "Waiting for System Upgrade Controller Bundle Update")
    (sampleBundle 3 3 (some (sampleValues true)))
    { isNotFound := false, message := "Invalid Semantic Version" } rfl rfl

/-! ## C8: a lookup error other than not-found -/

/-- C8: when the lookup fails with an error other than not-found, the reconciler returns that same
error and the status exactly as it was given. -/
theorem C8_lookup_error_propagates (ext : Externals) (h : handler) (obj : RKEControlPlane)
    (status : RKEControlPlaneStatus) (err : Error)
    (hget : lookupOutcome ext h obj = .error err) (hnf : err.isNotFound = false) :
    syncSystemUpgradeControllerStatus ext h obj status = some (status, some err) :=
  sync_lookup_error status hget hnf

/-- C8 on a connection error, with a status that carries the state True. -/
theorem C8_lookup_error_propagates_witness :
    syncSystemUpgradeControllerStatus sampleExternals
        (constHandler (.error { isNotFound := false, message := "connection refused" }))
        (sampleObj "1.26.0") (sampleStatus "True" "kept") =
      some (sampleStatus "True" "kept", some { isNotFound := false, message := "connection refused" }) :=
  C8_lookup_error_propagates sampleExternals
    (constHandler (.error { isNotFound := false, message := "connection refused" }))
    (sampleObj "1.26.0") (sampleStatus "True" "kept")
    { isNotFound := false, message := "connection refused" } rfl rfl

/-! ## C9: values present but lacking an expected key -/

/-- C9, as stated, fails: on a converged bundle, values that are present but hold no `global` map
give a reason that differs from the reason given when the values are absent. -/
theorem C9_counterexample :
    ∃ st st',
      syncSystemUpgradeControllerStatus sampleExternals
        (constHandler (.ok (sampleBundle 3 3 (some { data := [] })))) (sampleObj "1.26.0")
        (sampleStatus "" "") = some (st, none) ∧
      syncSystemUpgradeControllerStatus sampleExternals
        (constHandler (.ok (sampleBundle 3 3 none))) (sampleObj "1.26.0")
        (sampleStatus "" "") = some (st', none) ∧
      conditionReason st ≠ conditionReason st' :=
  ⟨sampleStatus "Unknown" "Waiting for System Upgrade Controller Bundle Update",
    sampleStatus "Unknown" "Waiting for Upgraded System Upgrade Controller Deployment",
    rfl, rfl, by decide⟩

/-- C9, amended: for a found bundle with Ready equal to DesiredReady whose values are present but
hold no boolean at `global.cattle.psp.enabled`, and a version string that is arbitrary when the
`psp` map itself is missing and parseable when only the boolean is missing, the reconciler does
not fail and returns the state Unknown, the state it also returns for the same bundle with the
values absent; its reason is "Waiting for System Upgrade Controller Bundle Update", where absent
values give "Waiting for Upgraded System Upgrade Controller Deployment". -/
theorem C9_malformed_values (ext : Externals) (h h' : handler) (obj : RKEControlPlane)
    (status : RKEControlPlaneStatus) (b b' : Bundle) (values : GenericMap)
    (hget : lookupOutcome ext h obj = .ok b)
    (heq : b.status.summary.ready = b.status.summary.desiredReady)
    (hval : appliedValues b = some values)
    (hmal : pspEnabledAt values.data = none)
    (hver : pspMap values.data = none ∨ ∃ v, ext.NewVersion obj.spec.kubernetesVersion = .ok v)
    (hget' : lookupOutcome ext h' obj = .ok b')
    (hstat : b'.status = b.status)
    (habs : appliedValues b' = none) :
    ∃ st st',
      syncSystemUpgradeControllerStatus ext h obj status = some (st, none) ∧
      syncSystemUpgradeControllerStatus ext h' obj status = some (st', none) ∧
      conditionState st = "Unknown" ∧ conditionState st' = "Unknown" ∧
      conditionReason st = "Waiting for System Upgrade Controller Bundle Update" ∧
      conditionReason st' = "Waiting for Upgraded System Upgrade Controller Deployment" ∧
      st.otherConditions = st'.otherConditions := by
  have heq' : b'.status.summary.ready = b'.status.summary.desiredReady := by
    rw [hstat]
    exact heq
  refine ⟨inspectingStatus status, _, ?_, sync_values_absent status hget' heq' habs,
    rfl, rfl, rfl, rfl, rfl⟩
  cases hpsp : pspMap values.data with
  | none => exact sync_no_psp_map status hget heq hval hpsp
  | some psp =>
    rw [sync_psp_map status hget heq hval hpsp]
    rcases hver with hnone | ⟨v, hv⟩
    · rw [hpsp] at hnone
      cases hnone
    · have hen : asBool (psp.lookup "enabled") = none := by
        unfold pspEnabledAt at hmal
        rw [hpsp] at hmal
        exact hmal
      simp [decideOnPsp, hv, hen]

/-- C9 amended, on values that hold the `psp` map without the key `enabled`. -/
theorem C9_malformed_values_witness :
    ∃ st st',
      syncSystemUpgradeControllerStatus sampleExternals
        (constHandler (.ok (sampleBundle 3 3 (some
          { data := [("global", Value.map [("cattle", Value.map [("psp", Value.map [])])])] }))))
        (sampleObj "1.26.0") (sampleStatus "True" "") = some (st, none) ∧
      syncSystemUpgradeControllerStatus sampleExternals
        (constHandler (.ok (sampleBundle 3 3 none))) (sampleObj "1.26.0")
        (sampleStatus "True" "") = some (st', none) ∧
      conditionState st = "Unknown" ∧ conditionState st' = "Unknown" ∧
      conditionReason st = "Waiting for System Upgrade Controller Bundle Update" ∧
      conditionReason st' = "Waiting for Upgraded System Upgrade Controller Deployment" ∧
      st.otherConditions = st'.otherConditions :=
  C9_malformed_values sampleExternals
    (constHandler (.ok (sampleBundle 3 3 (some
      { data := [("global", Value.map [("cattle", Value.map [("psp", Value.map [])])])] }))))
    (constHandler (.ok (sampleBundle 3 3 none))) (sampleObj "1.26.0") (sampleStatus "True" "")
    (sampleBundle 3 3 (some
      { data := [("global", Value.map [("cattle", Value.map [("psp", Value.map [])])])] }))
    (sampleBundle 3 3 none)
    { data := [("global", Value.map [("cattle", Value.map [("psp", Value.map [])])])] }
    rfl rfl rfl rfl (Or.inr ⟨_, rfl⟩) rfl rfl rfl

/-! ## C10: values absent -/

/-- C10: for a found bundle with Ready equal to DesiredReady whose helm values are absent
(`Spec.Helm` nil or `Spec.Helm.Values` nil), the reconciler returns no error and the condition
state Unknown, for every version string. -/
theorem C10_values_absent_unknown (ext : Externals) (h : handler) (obj : RKEControlPlane)
    (status : RKEControlPlaneStatus) (b : Bundle)
    (hget : lookupOutcome ext h obj = .ok b)
    (heq : b.status.summary.ready = b.status.summary.desiredReady)
    (habs : b.spec.helm = none ∨ ∃ helm, b.spec.helm = some helm ∧ helm.values = none) :
    ∃ st, syncSystemUpgradeControllerStatus ext h obj status = some (st, none) ∧
      conditionState st = "Unknown" := by
  have hnone : appliedValues b = none := by
    unfold appliedValues
    rcases habs with hh | ⟨helm, hh, hv⟩
    · rw [hh]
    · rw [hh]
      exact hv
  exact ⟨_, sync_values_absent status hget heq hnone, state_Reason_Unknown _ _⟩

/-- C10 on a bundle whose `Spec.Helm` is nil, with an unparseable version string. -/
theorem C10_values_absent_unknown_witness :
    ∃ st, syncSystemUpgradeControllerStatus sampleExternals
        (constHandler (.ok
          { spec := { helm := none }
            status := { summary := { ready := 3, desiredReady := 3, errApplied := 0,
                                     nonReadyResources := [] } } }))
        (sampleObj "not-a-version") (sampleStatus "True" "") = some (st, none) ∧
      conditionState st = "Unknown" :=
  C10_values_absent_unknown sampleExternals
    (constHandler (.ok
      { spec := { helm := none }
        status := { summary := { ready := 3, desiredReady := 3, errApplied := 0,
                                 nonReadyResources := [] } } }))
    (sampleObj "not-a-version") (sampleStatus "True" "")
    { spec := { helm := none }
      status := { summary := { ready := 3, desiredReady := 3, errApplied := 0,
                               nonReadyResources := [] } } }
    rfl rfl (Or.inl rfl)

/-! ## C11: the check is one-directional -/

/-- C11: for a found bundle with Ready equal to DesiredReady whose applied values carry
`global.cattle.psp.enabled = false`, and every parseable version, in particular every version
below 1.25.0, the reconciler returns no error and the condition state True. -/
theorem C11_flag_false_is_true (ext : Externals) (h : handler) (obj : RKEControlPlane)
    (status : RKEControlPlaneStatus) (b : Bundle) (values : GenericMap) (v : Version)
    (hget : lookupOutcome ext h obj = .ok b)
    (heq : b.status.summary.ready = b.status.summary.desiredReady)
    (hval : appliedValues b = some values)
    (hflag : pspEnabledAt values.data = some false)
    (hver : ext.NewVersion obj.spec.kubernetesVersion = .ok v) :
    ∃ st, syncSystemUpgradeControllerStatus ext h obj status = some (st, none) ∧
      conditionState st = "True" := by
  obtain ⟨psp, hpsp, hen⟩ := pspEnabledAt_eq_some hflag
  rw [sync_psp_map status hget heq hval hpsp, decideOnPsp_parsed _ hver hen,
    if_neg (fun hc => Bool.false_ne_true hc.1)]
  exact ⟨_, rfl, state_True _⟩

/-- C11 on version 1.24.0, which is below the threshold, with the flag false. -/
theorem C11_flag_false_is_true_witness :
    (⟨1, 24, 0, "", ""⟩ : Version).LessThan Kubernetes125 = true ∧
    ∃ st, syncSystemUpgradeControllerStatus sampleExternals
        (constHandler (.ok (sampleBundle 3 3 (some (sampleValues false))))) (sampleObj "1.24.0")
        (sampleStatus "" "") = some (st, none) ∧
      conditionState st = "True" :=
  ⟨by decide,
    C11_flag_false_is_true sampleExternals
      (constHandler (.ok (sampleBundle 3 3 (some (sampleValues false))))) (sampleObj "1.24.0")
      (sampleStatus "" "") (sampleBundle 3 3 (some (sampleValues false))) (sampleValues false)
      ⟨1, 24, 0, "", ""⟩ rfl rfl rfl rfl rfl⟩

/-! ## C12: the reason while rolling out -/

theorem reason_Reason (status : RKEControlPlaneStatus) (reason : String) :
    conditionReason (SystemUpgradeControllerReady.Reason status reason) = reason := rfl

/-- Without a qualifying error the roll-out reason is the fixed waiting text. -/
theorem rollOutReason_waiting (summary : BundleSummary)
    (hcase : summary.errApplied = 0 ∨ summary.nonReadyResources = []) :
    rollOutReason summary = "Waiting for System Upgrade Controller Deployment roll out" := by
  unfold rollOutReason
  rcases hcase with h0 | hnil
  · cases hl : summary.nonReadyResources with
    | nil => rfl
    | cons r rs => simp [h0]
  · rw [hnil]

/-- C12: for a found bundle with Ready different from DesiredReady, when ErrApplied is not 0 and
NonReadyResources is not empty the reconciler returns the state Unknown with the error text
followed by the message of the first entry, the same whatever the later entries are; when
ErrApplied is 0 or the list is empty the reason is the fixed roll-out waiting text. -/
theorem C12_roll_out_reason (ext : Externals) (h : handler) (obj : RKEControlPlane)
    (status : RKEControlPlaneStatus) (b : Bundle)
    (hget : lookupOutcome ext h obj = .ok b)
    (hne : b.status.summary.ready ≠ b.status.summary.desiredReady) :
    (∀ r rs, b.status.summary.errApplied ≠ 0 → b.status.summary.nonReadyResources = r :: rs →
      ∃ st, syncSystemUpgradeControllerStatus ext h obj status = some (st, none) ∧
        conditionState st = "Unknown" ∧
        conditionReason st =
          "Error Encountered Waiting for System Upgrade Controller Deployment To Roll Out: " ++
            r.message ∧
        r.message.data <:+: (conditionReason st).data ∧
        ∀ (h' : handler) (b' : Bundle) (rs' : List NonReadyResource),
          lookupOutcome ext h' obj = .ok b' →
          b'.status.summary = { b.status.summary with nonReadyResources := r :: rs' } →
          syncSystemUpgradeControllerStatus ext h' obj status = some (st, none)) ∧
    (b.status.summary.errApplied = 0 ∨ b.status.summary.nonReadyResources = [] →
      ∃ st, syncSystemUpgradeControllerStatus ext h obj status = some (st, none) ∧
        conditionState st = "Unknown" ∧
        conditionReason st = "Waiting for System Upgrade Controller Deployment roll out") := by
  constructor
  · intro r rs herr hl
    have hreason : rollOutReason b.status.summary =
        "Error Encountered Waiting for System Upgrade Controller Deployment To Roll Out: " ++
          r.message := by
      simp [rollOutReason, hl, herr]
    refine ⟨_, sync_rolling_out status hget hne, state_Reason_Unknown _ _, ?_, ?_, ?_⟩
    · rw [reason_Reason, hreason]
    · rw [reason_Reason, hreason, String.data_append]
      exact ⟨_, [], List.append_nil _⟩
    · intro h' b' rs' hget' hsum
      have hne' : b'.status.summary.ready ≠ b'.status.summary.desiredReady := by
        rw [hsum]
        exact hne
      rw [sync_rolling_out status hget' hne', hreason]
      have : rollOutReason b'.status.summary =
          "Error Encountered Waiting for System Upgrade Controller Deployment To Roll Out: " ++
            r.message := by
        rw [hsum]
        simp [rollOutReason, herr]
      rw [this]
  · intro hcase
    refine ⟨_, sync_rolling_out status hget hne, state_Reason_Unknown _ _, ?_⟩
    rw [reason_Reason, rollOutReason_waiting _ hcase]

/-- C12 on a stalled bundle whose first non-ready resource carries the message "boom". -/
theorem C12_roll_out_reason_witness :
    ∃ st, syncSystemUpgradeControllerStatus sampleExternals
        (constHandler (.ok (stalledBundle 1 [⟨"x", "boom"⟩, ⟨"y", "later"⟩]))) (sampleObj "1.26.0")
        (sampleStatus "" "") = some (st, none) ∧
      conditionState st = "Unknown" ∧
      conditionReason st =
        "Error Encountered Waiting for System Upgrade Controller Deployment To Roll Out: " ++ "boom" := by
  obtain ⟨st, hres, hstate, hreason, _⟩ :=
    (C12_roll_out_reason sampleExternals
      (constHandler (.ok (stalledBundle 1 [⟨"x", "boom"⟩, ⟨"y", "later"⟩]))) (sampleObj "1.26.0")
      (sampleStatus "" "") (stalledBundle 1 [⟨"x", "boom"⟩, ⟨"y", "later"⟩]) rfl (by decide)).1
      ⟨"x", "boom"⟩ [⟨"y", "later"⟩] (by decide) rfl
  exact ⟨st, hres, hstate, hreason⟩

/-! ## C13: the three reason texts -/

/-- C13, as stated, fails: while the bundle is rolling out with no qualifying error the reason is
not the text "Waiting for Deployment roll out". -/
theorem C13_counterexample :
    ∃ st, syncSystemUpgradeControllerStatus sampleExternals
        (constHandler (.ok (sampleBundle 2 3 none))) (sampleObj "1.26.0")
        (sampleStatus "" "") = some (st, none) ∧
      conditionReason st ≠ "Waiting for Deployment roll out" :=
  ⟨sampleStatus "Unknown" "Waiting for System Upgrade Controller Deployment roll out", rfl,
    by decide⟩

/-- C13, amended: the reason is exactly "Waiting for System Upgrade Controller Deployment roll
out" when the bundle is rolling out with no qualifying error, exactly "Waiting for Upgraded System
Upgrade Controller Deployment" when it has converged and its values are absent, and exactly
"System Upgrade Controller Not Ready" when it has converged with psp enabled on a version not
below 1.25.0; the three texts are pairwise distinct. -/
theorem C13_reason_texts (ext : Externals) (h : handler) (obj : RKEControlPlane)
    (status : RKEControlPlaneStatus) (b : Bundle)
    (hget : lookupOutcome ext h obj = .ok b) :
    (b.status.summary.ready ≠ b.status.summary.desiredReady →
      (b.status.summary.errApplied = 0 ∨ b.status.summary.nonReadyResources = []) →
      ∃ st, syncSystemUpgradeControllerStatus ext h obj status = some (st, none) ∧
        conditionReason st = "Waiting for System Upgrade Controller Deployment roll out") ∧
    (b.status.summary.ready = b.status.summary.desiredReady → appliedValues b = none →
      ∃ st, syncSystemUpgradeControllerStatus ext h obj status = some (st, none) ∧
        conditionReason st = "Waiting for Upgraded System Upgrade Controller Deployment") ∧
    (∀ values v, b.status.summary.ready = b.status.summary.desiredReady →
      appliedValues b = some values → pspEnabledAt values.data = some true →
      ext.NewVersion obj.spec.kubernetesVersion = .ok v → v.LessThan Kubernetes125 = false →
      ∃ st, syncSystemUpgradeControllerStatus ext h obj status = some (st, none) ∧
        conditionReason st = "System Upgrade Controller Not Ready") ∧
    "Waiting for System Upgrade Controller Deployment roll out" ≠
      "Waiting for Upgraded System Upgrade Controller Deployment" ∧
    "Waiting for System Upgrade Controller Deployment roll out" ≠
      "System Upgrade Controller Not Ready" ∧
    "Waiting for Upgraded System Upgrade Controller Deployment" ≠
      "System Upgrade Controller Not Ready" := by
  refine ⟨?_, ?_, ?_, by decide, by decide, by decide⟩
  · intro hne hcase
    refine ⟨_, sync_rolling_out status hget hne, ?_⟩
    rw [reason_Reason, rollOutReason_waiting _ hcase]
  · intro heq habs
    exact ⟨_, sync_values_absent status hget heq habs, rfl⟩
  · intro values v heq hval hflag hver hnb
    obtain ⟨psp, hpsp, hen⟩ := pspEnabledAt_eq_some hflag
    rw [sync_psp_map status hget heq hval hpsp, decideOnPsp_parsed _ hver hen,
      if_pos ⟨rfl, hnb⟩]
    exact ⟨_, rfl, rfl⟩

/-- C13 amended, on a converged bundle with flag true and version 1.26.0. -/
theorem C13_reason_texts_witness :
    ∃ st, syncSystemUpgradeControllerStatus sampleExternals
        (constHandler (.ok (sampleBundle 3 3 (some (sampleValues true))))) (sampleObj "1.26.0")
        (sampleStatus "" "") = some (st, none) ∧
      conditionReason st = "System Upgrade Controller Not Ready" :=
  (C13_reason_texts sampleExternals
    (constHandler (.ok (sampleBundle 3 3 (some (sampleValues true))))) (sampleObj "1.26.0")
    (sampleStatus "" "") (sampleBundle 3 3 (some (sampleValues true))) rfl).2.2.1
    (sampleValues true) ⟨1, 26, 0, "", ""⟩ rfl rfl rfl rfl (by decide)

/-! ## C14: dependence on the previous condition -/

/-- After `Unknown` and `Reason` nothing of the previous condition is left. -/
theorem Reason_Unknown_congr (s1 s2 : RKEControlPlaneStatus)
    (hother : s1.otherConditions = s2.otherConditions) (reason : String) :
    SystemUpgradeControllerReady.Reason (SystemUpgradeControllerReady.Unknown s1) reason =
      SystemUpgradeControllerReady.Reason (SystemUpgradeControllerReady.Unknown s2) reason := by
  simp [SystemUpgradeControllerReady.Reason, SystemUpgradeControllerReady.Unknown, hother]

/-- On a found bundle the whole result is the same for two statuses that differ only in the
previous `SystemUpgradeControllerReady` condition. -/
theorem sync_found_congr {ext : Externals} {h : handler} {obj : RKEControlPlane} {b : Bundle}
    (s1 s2 : RKEControlPlaneStatus) (hother : s1.otherConditions = s2.otherConditions)
    (hget : lookupOutcome ext h obj = .ok b) :
    syncSystemUpgradeControllerStatus ext h obj s1 =
      syncSystemUpgradeControllerStatus ext h obj s2 := by
  have hI : inspectingStatus s1 = inspectingStatus s2 := Reason_Unknown_congr s1 s2 hother _
  by_cases heq : b.status.summary.ready = b.status.summary.desiredReady
  swap
  · rw [sync_rolling_out s1 hget heq, sync_rolling_out s2 hget heq,
      Reason_Unknown_congr s1 s2 hother]
  cases hval : appliedValues b with
  | none =>
    rw [sync_values_absent s1 hget heq hval, sync_values_absent s2 hget heq hval,
      Reason_Unknown_congr s1 s2 hother]
  | some values =>
    cases hpsp : pspMap values.data with
    | none =>
      rw [sync_no_psp_map s1 hget heq hval hpsp, sync_no_psp_map s2 hget heq hval hpsp, hI]
    | some psp =>
      rw [sync_psp_map s1 hget heq hval hpsp, sync_psp_map s2 hget heq hval hpsp, hI]

/-- C14, as stated, fails: with a not-found lookup, two statuses that differ only in the previous
reason give error-free passes whose reasons differ, because the previous reason is kept. -/
theorem C14_counterexample :
    ∃ st1 st2,
      syncSystemUpgradeControllerStatus sampleExternals
        (constHandler (.error { isNotFound := true, message := "bundle not found" }))
        (sampleObj "1.26.0") (sampleStatus "Unknown" "System Upgrade Controller Not Ready") =
          some (st1, none) ∧
      syncSystemUpgradeControllerStatus sampleExternals
        (constHandler (.error { isNotFound := true, message := "bundle not found" }))
        (sampleObj "1.26.0") (sampleStatus "Unknown" "") = some (st2, none) ∧
      conditionReason st1 = "System Upgrade Controller Not Ready" ∧
      conditionReason st1 ≠ conditionReason st2 :=
  ⟨sampleStatus "False" "System Upgrade Controller Not Ready", sampleStatus "False" "",
    rfl, rfl, rfl, by decide⟩

/-- C14, amended: for two statuses that differ only in the previous state and reason of the
condition, the same object and the same lookup outcome, every error-free pass yields the same
state; on a found bundle the whole result (status and error) is the same, so nothing of the
previous condition survives; on a not-found lookup the state is False and the reason is the
previous reason, which is kept. -/
theorem C14_previous_condition (ext : Externals) (h : handler) (obj : RKEControlPlane)
    (s1 s2 : RKEControlPlaneStatus) (hother : s1.otherConditions = s2.otherConditions) :
    (∀ st1 st2, syncSystemUpgradeControllerStatus ext h obj s1 = some (st1, none) →
      syncSystemUpgradeControllerStatus ext h obj s2 = some (st2, none) →
      conditionState st1 = conditionState st2 ∧ st1.otherConditions = st2.otherConditions) ∧
    (∀ b, lookupOutcome ext h obj = .ok b →
      syncSystemUpgradeControllerStatus ext h obj s1 =
        syncSystemUpgradeControllerStatus ext h obj s2) ∧
    (∀ err, lookupOutcome ext h obj = .error err → err.isNotFound = true →
      ∃ st1, syncSystemUpgradeControllerStatus ext h obj s1 = some (st1, none) ∧
        conditionState st1 = "False" ∧ conditionReason st1 = conditionReason s1) := by
  refine ⟨?_, fun b hget => sync_found_congr s1 s2 hother hget, ?_⟩
  · intro st1 st2 h1 h2
    cases hget : lookupOutcome ext h obj with
    | error err =>
      cases hnf : err.isNotFound with
      | true =>
        rw [sync_not_found s1 hget hnf] at h1
        rw [sync_not_found s2 hget hnf] at h2
        simp only [Option.some.injEq, Prod.mk.injEq, and_true] at h1 h2
        rw [← h1, ← h2]
        exact ⟨rfl, hother⟩
      | false =>
        rw [sync_lookup_error s1 hget hnf] at h1
        simp at h1
    | ok b =>
      rw [sync_found_congr s1 s2 hother hget, h2] at h1
      simp only [Option.some.injEq, Prod.mk.injEq, and_true] at h1
      rw [h1]
      exact ⟨rfl, rfl⟩
  · intro err hget hnf
    exact ⟨_, sync_not_found s1 hget hnf, rfl, rfl⟩

/-- C14 amended, on a converged, compatible bundle and two different previous conditions. -/
theorem C14_previous_condition_witness :
    syncSystemUpgradeControllerStatus sampleExternals
        (constHandler (.ok (sampleBundle 3 3 (some (sampleValues false))))) (sampleObj "1.26.0")
        (sampleStatus "False" "old reason") =
      syncSystemUpgradeControllerStatus sampleExternals
        (constHandler (.ok (sampleBundle 3 3 (some (sampleValues false))))) (sampleObj "1.26.0")
        (sampleStatus "Unknown" "") :=
  (C14_previous_condition sampleExternals
    (constHandler (.ok (sampleBundle 3 3 (some (sampleValues false))))) (sampleObj "1.26.0")
    (sampleStatus "False" "old reason") (sampleStatus "Unknown" "") rfl).2.1
    (sampleBundle 3 3 (some (sampleValues false))) rfl

/-! ## Facts about the builder -/

/-- What a run of the builder that returns one chart and no error has done. -/
theorem OnChangeInstallSUC_one {ext : Externals} {cluster : Cluster} {cstatus cs' : ClusterStatus}
    {mcc : ManagedChart}
    (hbuild : OnChangeInstallSUC ext cluster cstatus = ([mcc], cs', none)) :
    ∃ v values,
      ext.NewVersion cluster.spec.kubernetesVersion = .ok v ∧ cs' = cstatus ∧
      mcc.objectMeta.name =
        Limit ext (ext.SafeConcatName [cluster.name, "managed", "system-upgrade-controller"]) 48 ∧
      mcc.spec.values = some values ∧
      pspEnabledAt values.data = some (v.LessThan Kubernetes125) := by
  unfold OnChangeInstallSUC at hbuild
  cases hr : cluster.spec.rkeConfig with
  | none =>
    rw [hr] at hbuild
    simp at hbuild
  | some u =>
    rw [hr] at hbuild
    cases hver : ext.NewVersion cluster.spec.kubernetesVersion with
    | error err =>
      rw [hver] at hbuild
      simp at hbuild
    | ok v =>
      rw [hver] at hbuild
      simp only [Prod.mk.injEq, List.cons.injEq, and_true] at hbuild
      obtain ⟨hm, hs⟩ := hbuild
      subst hm
      refine ⟨v, _, rfl, hs.symm, rfl, rfl, ?_⟩
      cases v.LessThan Kubernetes125 <;>
        simp [pspEnabledAt, pspMap, asMap, asBool, List.lookup]

/-! ## C15: builder and reconciler agree -/

/-- C15: for every parseable version, when the found bundle has Ready equal to DesiredReady and
its applied values are the values the builder gives the chart it builds for a cluster with that
version string, the reconciler for an object with the same version string returns no error and
the condition state True. -/
theorem C15_builder_reconciler_agree (ext : Externals) (h : handler) (obj : RKEControlPlane)
    (status : RKEControlPlaneStatus) (cluster : Cluster) (cstatus cs' : ClusterStatus)
    (mcc : ManagedChart) (b : Bundle)
    (hbuild : OnChangeInstallSUC ext cluster cstatus = ([mcc], cs', none))
    (hsame : obj.spec.kubernetesVersion = cluster.spec.kubernetesVersion)
    (hget : lookupOutcome ext h obj = .ok b)
    (heq : b.status.summary.ready = b.status.summary.desiredReady)
    (hval : appliedValues b = mcc.spec.values) :
    ∃ st, syncSystemUpgradeControllerStatus ext h obj status = some (st, none) ∧
      conditionState st = "True" := by
  obtain ⟨v, values, hver, _, _, hvalues, hflag⟩ := OnChangeInstallSUC_one hbuild
  rw [hvalues] at hval
  rw [← hsame] at hver
  obtain ⟨psp, hpsp, hen⟩ := pspEnabledAt_eq_some hflag
  rw [sync_psp_map status hget heq hval hpsp, decideOnPsp_parsed _ hver hen]
  have hnot : ¬ (v.LessThan Kubernetes125 = true ∧ v.LessThan Kubernetes125 = false) := by
    rintro ⟨h1, h2⟩
    rw [h1] at h2
    cases h2
  rw [if_neg hnot]
  exact ⟨_, rfl, state_True _⟩

/-- C15 on version 1.24.0, for which the builder sets the flag to true. -/
theorem C15_builder_reconciler_agree_witness :
    ∃ mcc : ManagedChart,
      OnChangeInstallSUC sampleExternals (sampleCluster "c-m-abc" (some ()) "1.24.0")
        sampleClusterStatus = ([mcc], sampleClusterStatus, none) ∧
      ∃ st, syncSystemUpgradeControllerStatus sampleExternals
          (constHandler (.ok { spec := { helm := some { values := mcc.spec.values } }
                               status := (sampleBundle 3 3 none).status }))
          (sampleObj "1.24.0") (sampleStatus "" "") = some (st, none) ∧
        conditionState st = "True" :=
  ⟨_, rfl,
    C15_builder_reconciler_agree sampleExternals _ (sampleObj "1.24.0") (sampleStatus "" "")
      (sampleCluster "c-m-abc" (some ()) "1.24.0") sampleClusterStatus sampleClusterStatus _
      _ rfl rfl rfl rfl rfl⟩

/-! ## C16: the name looked up is the name built -/

/-- C16: for a cluster and a control-plane object with the same name, the bundle name the
reconciler looks up is "mcc-" followed by the name of the chart the builder builds, which is the
48-limit of the safe concatenation of the cluster name, "managed" and
"system-upgrade-controller". -/
theorem C16_lookup_name_is_built_name (ext : Externals) (obj : RKEControlPlane)
    (cluster : Cluster) (cstatus cs' : ClusterStatus) (mcc : ManagedChart)
    (hbuild : OnChangeInstallSUC ext cluster cstatus = ([mcc], cs', none))
    (hname : cluster.name = obj.name) :
    bundleName ext obj = "mcc-" ++ mcc.objectMeta.name ∧
      mcc.objectMeta.name =
        Limit ext (ext.SafeConcatName [cluster.name, "managed", "system-upgrade-controller"]) 48 := by
  obtain ⟨_, _, _, _, hn, _, _⟩ := OnChangeInstallSUC_one hbuild
  refine ⟨?_, hn⟩
  rw [hn, hname]
  rfl

/-- C16 on a cluster and an object both named "c-m-abc". -/
theorem C16_lookup_name_is_built_name_witness :
    ∃ mcc : ManagedChart,
      OnChangeInstallSUC sampleExternals (sampleCluster "c-m-abc" (some ()) "1.26.0")
        sampleClusterStatus = ([mcc], sampleClusterStatus, none) ∧
      bundleName sampleExternals (sampleObj "1.26.0") = "mcc-" ++ mcc.objectMeta.name :=
  ⟨_, rfl,
    (C16_lookup_name_is_built_name sampleExternals (sampleObj "1.26.0")
      (sampleCluster "c-m-abc" (some ()) "1.26.0") sampleClusterStatus sampleClusterStatus _
      rfl rfl).1⟩

/-! ## C17: the length of the built name -/

theorem take_length_le (s : String) (n : Nat) : (s.take n).length ≤ n := by
  rw [String.take_eq]
  simp only [String.length]
  exact List.length_take_le n s.data

/-- The result of `Limit` with a count of at least 6 is never longer than the count. -/
theorem Limit_length_le (ext : Externals) (s : String) (count : Nat) (hcount : 6 ≤ count) :
    (Limit ext s count).length ≤ count := by
  unfold Limit
  split
  · omega
  · rw [String.length_append, String.length_append]
    have h1 := take_length_le s (count - 6)
    have h2 : (Hex ext s 5).length ≤ 5 := take_length_le _ 5
    have h3 : "-".length = 1 := rfl
    omega

/-- C17: the name of the chart the builder builds has at most 48 characters, so with the prefix
"mcc-" the release name has at most 52 characters, which is within the limit of 53; building
from a cluster of the same name again gives the same name. -/
theorem C17_name_length_bounded (ext : Externals) (cluster : Cluster) (cstatus cs' : ClusterStatus)
    (mcc : ManagedChart)
    (hbuild : OnChangeInstallSUC ext cluster cstatus = ([mcc], cs', none)) :
    mcc.objectMeta.name.length ≤ 48 ∧
      ("mcc-" ++ mcc.objectMeta.name).length ≤ 52 ∧
      ("mcc-" ++ mcc.objectMeta.name).length ≤ 53 ∧
      ∀ (cluster2 : Cluster) (cstatus2 cs2 : ClusterStatus) (mcc2 : ManagedChart),
        cluster2.name = cluster.name →
        OnChangeInstallSUC ext cluster2 cstatus2 = ([mcc2], cs2, none) →
        mcc2.objectMeta.name = mcc.objectMeta.name := by
  obtain ⟨_, _, _, _, hn, _, _⟩ := OnChangeInstallSUC_one hbuild
  have hlen : mcc.objectMeta.name.length ≤ 48 := by
    rw [hn]
    exact Limit_length_le ext _ 48 (by decide)
  have hpre : "mcc-".length = 4 := rfl
  refine ⟨hlen, ?_, ?_, ?_⟩
  · rw [String.length_append]
    omega
  · rw [String.length_append]
    omega
  · intro cluster2 cstatus2 cs2 mcc2 hsame hbuild2
    obtain ⟨_, _, _, _, hn2, _, _⟩ := OnChangeInstallSUC_one hbuild2
    rw [hn, hn2, hsame]

/-- C17 on a cluster whose name has 40 characters, so that the joined name is cut. -/
theorem C17_name_length_bounded_witness :
    ∃ mcc : ManagedChart,
      OnChangeInstallSUC sampleExternals
        (sampleCluster "cluster-0123456789-0123456789-0123456789" (some ()) "1.26.0")
        sampleClusterStatus = ([mcc], sampleClusterStatus, none) ∧
      mcc.objectMeta.name.length ≤ 48 ∧
      ("mcc-" ++ mcc.objectMeta.name).length ≤ 53 := by
  refine ⟨_, rfl, ?_⟩
  have hw := C17_name_length_bounded sampleExternals
    (sampleCluster "cluster-0123456789-0123456789-0123456789" (some ()) "1.26.0")
    sampleClusterStatus sampleClusterStatus _ rfl
  exact ⟨hw.1, hw.2.2.1⟩

/-! ## C18: the results of the builder -/

/-- C18, as stated, fails: for a cluster without an RKE configuration and a parseable version
string the builder returns no error and no deployment request. -/
theorem C18_counterexample :
    (∃ v, sampleExternals.NewVersion (sampleCluster "c-m-abc" none "1.26.0").spec.kubernetesVersion =
        .ok v) ∧
      OnChangeInstallSUC sampleExternals (sampleCluster "c-m-abc" none "1.26.0")
        sampleClusterStatus = ([], sampleClusterStatus, none) :=
  ⟨⟨_, rfl⟩, rfl⟩

/-- C18, amended: the builder always returns the status it was given; for a cluster without an
RKE configuration it returns no request and no error, whatever the version string; for a cluster
with an RKE configuration it returns an error exactly when the version string is unparseable, and
then no request, and otherwise exactly one request. -/
theorem C18_builder_results (ext : Externals) (cluster : Cluster) (cstatus : ClusterStatus) :
    (OnChangeInstallSUC ext cluster cstatus).2.1 = cstatus ∧
    (cluster.spec.rkeConfig = none →
      OnChangeInstallSUC ext cluster cstatus = ([], cstatus, none)) ∧
    (cluster.spec.rkeConfig ≠ none →
      ((∃ err, (OnChangeInstallSUC ext cluster cstatus).2.2 = some err) ↔
        ∃ perr, ext.NewVersion cluster.spec.kubernetesVersion = .error perr) ∧
      (∀ perr, ext.NewVersion cluster.spec.kubernetesVersion = .error perr →
        OnChangeInstallSUC ext cluster cstatus = ([], cstatus, some perr)) ∧
      (∀ v, ext.NewVersion cluster.spec.kubernetesVersion = .ok v →
        ∃ mcc, OnChangeInstallSUC ext cluster cstatus = ([mcc], cstatus, none))) := by
  cases hr : cluster.spec.rkeConfig with
  | none =>
    refine ⟨?_, ?_, fun hne => absurd rfl hne⟩
    · simp [OnChangeInstallSUC, hr]
    · intro _
      simp [OnChangeInstallSUC, hr]
  | some u =>
    cases hver : ext.NewVersion cluster.spec.kubernetesVersion with
    | error perr =>
      have hres : OnChangeInstallSUC ext cluster cstatus = ([], cstatus, some perr) := by
        simp [OnChangeInstallSUC, hr, hver]
      refine ⟨(by rw [hres]), (fun hc => Option.noConfusion hc), (fun _ => ⟨?_, ?_, ?_⟩)⟩
      · rw [hres]
        exact ⟨fun _ => ⟨perr, rfl⟩, fun _ => ⟨perr, rfl⟩⟩
      · intro perr' he
        cases he
        exact hres
      · intro v hv
        cases hv
    | ok v =>
      have hres : ∃ mcc, OnChangeInstallSUC ext cluster cstatus = ([mcc], cstatus, none) := by
        simp [OnChangeInstallSUC, hr, hver]
      obtain ⟨mcc, hres⟩ := hres
      refine ⟨(by rw [hres]), (fun hc => Option.noConfusion hc), (fun _ => ⟨?_, ?_, ?_⟩)⟩
      · rw [hres]
        constructor
        · rintro ⟨err, he⟩
          cases he
        · rintro ⟨perr, he⟩
          cases he
      · intro perr he
        cases he
      · intro v' _
        exact ⟨mcc, hres⟩

/-- C18 amended, on a cluster with an RKE configuration and an unparseable version string. -/
theorem C18_builder_results_witness :
    OnChangeInstallSUC sampleExternals (sampleCluster "c-m-abc" (some ()) "not-a-version")
        sampleClusterStatus =
      ([], sampleClusterStatus, some { isNotFound := false, message := "Invalid Semantic Version" }) :=
  ((C18_builder_results sampleExternals (sampleCluster "c-m-abc" (some ()) "not-a-version")
    sampleClusterStatus).2.2 (by decide)).2.1 _ rfl

/-! ## C19: the reason that accompanies the state True -/

/-- C19, as stated, fails: when the lookup fails with an error other than not-found, the status is
returned as given, so a pass given the state True with the reason "kept" ends with the state True
and a reason that is not the text written before the values are inspected. -/
theorem C19_counterexample :
    ∃ st e,
      syncSystemUpgradeControllerStatus sampleExternals
        (constHandler (.error { isNotFound := false, message := "connection refused" }))
        (sampleObj "1.26.0") (sampleStatus "True" "kept") = some (st, e) ∧
      conditionState st = "True" ∧
      conditionReason st ≠ "Waiting for System Upgrade Controller Bundle Update" :=
  ⟨sampleStatus "True" "kept", some { isNotFound := false, message := "connection refused" },
    rfl, rfl, by decide⟩

/-- C19, amended: on every pass that ends with the condition state True, either the pass returns
no error and the reason of the returned condition is "Waiting for System Upgrade Controller Bundle
Update", the text written before the values were inspected (the returned status is that
inspecting status with only the state set to True), or the lookup failed with an error other than
not-found and the returned status, with its state True and its reason, is the one given. -/
theorem C19_true_reason_cases (ext : Externals) (h : handler) (obj : RKEControlPlane)
    (status st : RKEControlPlaneStatus) (e : Option Error)
    (hres : syncSystemUpgradeControllerStatus ext h obj status = some (st, e))
    (htrue : conditionState st = "True") :
    (e = none ∧
      conditionReason st = "Waiting for System Upgrade Controller Bundle Update" ∧
      st = SystemUpgradeControllerReady.True (inspectingStatus status) ∧
      conditionReason (inspectingStatus status) =
        "Waiting for System Upgrade Controller Bundle Update") ∨
    (∃ err, lookupOutcome ext h obj = .error err ∧ err.isNotFound = false ∧ e = some err ∧
      st = status) := by
  cases hget : lookupOutcome ext h obj with
  | error err =>
    cases hnf : err.isNotFound with
    | true =>
      exfalso
      rw [sync_not_found status hget hnf] at hres
      simp only [Option.some.injEq, Prod.mk.injEq] at hres
      rw [← hres.1, state_False] at htrue
      exact absurd htrue (by decide)
    | false =>
      rw [sync_lookup_error status hget hnf] at hres
      simp only [Option.some.injEq, Prod.mk.injEq] at hres
      exact Or.inr ⟨err, rfl, hnf, hres.2.symm, hres.1.symm⟩
  | ok b =>
    by_cases heq : b.status.summary.ready = b.status.summary.desiredReady
    swap
    · exfalso
      rw [sync_rolling_out status hget heq] at hres
      simp only [Option.some.injEq, Prod.mk.injEq] at hres
      rw [← hres.1, state_Reason_Unknown] at htrue
      exact absurd htrue (by decide)
    cases hval : appliedValues b with
    | none =>
      exfalso
      rw [sync_values_absent status hget heq hval] at hres
      simp only [Option.some.injEq, Prod.mk.injEq] at hres
      rw [← hres.1, state_Reason_Unknown] at htrue
      exact absurd htrue (by decide)
    | some values =>
      cases hpsp : pspMap values.data with
      | none =>
        exfalso
        rw [sync_no_psp_map status hget heq hval hpsp] at hres
        simp only [Option.some.injEq, Prod.mk.injEq] at hres
        rw [← hres.1, state_inspecting] at htrue
        exact absurd htrue (by decide)
      | some psp =>
        rw [sync_psp_map status hget heq hval hpsp] at hres
        cases hver : ext.NewVersion obj.spec.kubernetesVersion with
        | error perr =>
          exfalso
          simp only [decideOnPsp, hver, Option.some.injEq, Prod.mk.injEq] at hres
          rw [← hres.1, state_inspecting] at htrue
          exact absurd htrue (by decide)
        | ok v =>
          cases hen : asBool (psp.lookup "enabled") with
          | none =>
            exfalso
            simp only [decideOnPsp, hver, hen, Option.some.injEq, Prod.mk.injEq] at hres
            rw [← hres.1, state_inspecting] at htrue
            exact absurd htrue (by decide)
          | some enabled =>
            rw [decideOnPsp_parsed _ hver hen] at hres
            split at hres
            · exfalso
              simp only [Option.some.injEq, Prod.mk.injEq] at hres
              rw [← hres.1, state_Reason_inspecting] at htrue
              exact absurd htrue (by decide)
            · simp only [Option.some.injEq, Prod.mk.injEq] at hres
              rw [← hres.1, ← hres.2]
              exact Or.inl ⟨rfl, rfl, rfl, rfl⟩

/-- C19 amended, on a converged bundle with flag false, version 1.26.0 and a previous reason: the
pass ends with the state True and the reason written before the values were inspected. -/
theorem C19_true_reason_cases_witness :
    ((none : Option Error) = none ∧
      conditionReason (sampleStatus "True" "Waiting for System Upgrade Controller Bundle Update") =
        "Waiting for System Upgrade Controller Bundle Update" ∧
      sampleStatus "True" "Waiting for System Upgrade Controller Bundle Update" =
        SystemUpgradeControllerReady.True (inspectingStatus (sampleStatus "False" "old reason")) ∧
      conditionReason (inspectingStatus (sampleStatus "False" "old reason")) =
        "Waiting for System Upgrade Controller Bundle Update") ∨
    (∃ err, lookupOutcome sampleExternals
        (constHandler (.ok (sampleBundle 3 3 (some (sampleValues false))))) (sampleObj "1.26.0") =
          .error err ∧ err.isNotFound = false ∧ (none : Option Error) = some err ∧
      sampleStatus "True" "Waiting for System Upgrade Controller Bundle Update" =
        sampleStatus "False" "old reason") :=
  C19_true_reason_cases sampleExternals
    (constHandler (.ok (sampleBundle 3 3 (some (sampleValues false))))) (sampleObj "1.26.0")
    (sampleStatus "False" "old reason")
    (sampleStatus "True" "Waiting for System Upgrade Controller Bundle Update") none rfl rfl

/-! ## C20: no panic is reachable -/

theorem decideOnPsp_returns (ext : Externals) (obj : RKEControlPlane)
    (status : RKEControlPlaneStatus) (psp : List (String × Value)) :
    ∃ st e, decideOnPsp ext obj status psp = some (st, e) := by
  unfold decideOnPsp
  cases ext.NewVersion obj.spec.kubernetesVersion with
  | error err => exact ⟨_, _, rfl⟩
  | ok v =>
    cases asBool (psp.lookup "enabled") with
    | none => exact ⟨_, _, rfl⟩
    | some enabled =>
      dsimp only
      split
      · exact ⟨_, _, rfl⟩
      · exact ⟨_, _, rfl⟩

/-- C20: on every found bundle the reconciler returns normally: the outcome that stands for an
out-of-range index or a nil dereference is never produced, whatever the summary, the helm values
and the version string are; with ErrApplied not 0 and an empty NonReadyResources list the first
element is not read and the fixed waiting reason is written. -/
theorem C20_total_on_found_bundle (ext : Externals) (h : handler) (obj : RKEControlPlane)
    (status : RKEControlPlaneStatus) (b : Bundle)
    (hget : lookupOutcome ext h obj = .ok b) :
    (∃ st e, syncSystemUpgradeControllerStatus ext h obj status = some (st, e)) ∧
    (b.status.summary.ready ≠ b.status.summary.desiredReady →
      b.status.summary.nonReadyResources = [] →
      syncSystemUpgradeControllerStatus ext h obj status =
        some (SystemUpgradeControllerReady.Reason (SystemUpgradeControllerReady.Unknown status)
          "Waiting for System Upgrade Controller Deployment roll out", none)) := by
  constructor
  · by_cases heq : b.status.summary.ready = b.status.summary.desiredReady
    swap
    · exact ⟨_, _, sync_rolling_out status hget heq⟩
    cases hval : appliedValues b with
    | none => exact ⟨_, _, sync_values_absent status hget heq hval⟩
    | some values =>
      cases hpsp : pspMap values.data with
      | none => exact ⟨_, _, sync_no_psp_map status hget heq hval hpsp⟩
      | some psp =>
        rw [sync_psp_map status hget heq hval hpsp]
        exact decideOnPsp_returns ext obj _ psp
  · intro hne hnil
    rw [sync_rolling_out status hget hne, rollOutReason_waiting _ (Or.inr hnil)]

/-- C20 on a bundle that is rolling out with an error count of 1 and no non-ready resource. -/
theorem C20_total_on_found_bundle_witness :
    ∃ st e, syncSystemUpgradeControllerStatus sampleExternals
        (constHandler (.ok (stalledBundle 1 []))) (sampleObj "not-a-version")
        (sampleStatus "" "") = some (st, e) :=
  (C20_total_on_found_bundle sampleExternals (constHandler (.ok (stalledBundle 1 [])))
    (sampleObj "not-a-version") (sampleStatus "" "") (stalledBundle 1 []) rfl).1

end Managesystemagent
